import Mathlib

/-!
Verification of the Spotify database-agent repository.

The development shallowly embeds the query orchestrator of
`scripts/database-agent.ts` (the `DatabaseAgent` class) and the three
committed read endpoints under `src/app/api/*/route.ts`.

Modelling conventions:
* The SQLite store is a record of the four tables named by the agent; each
  table is an existence flag (schema materialized or not) plus its rows in
  insertion order.  A count/select/insert against a missing table throws,
  matching the driver.
* External failure sources (the classifier network call, injected driver
  failures for reads, creates, inserts and filesystem route writes) are
  explicit parameters, so error paths are first-class.
* Each run threads an `AgentState`; `trace` records every SQL statement and
  route-file write attempted, oldest first, and `routes` the route files
  written in this run.  The `context.steps` / `currentStep` fields of the
  source and its `console.log` output are write-only observability that no
  control flow reads; they are omitted from the state.
* `Date.now()` is a parameter `now` in integer milliseconds; timestamps are
  `Int`.
* The frontend fixture arrays (`recentlyPlayedData`, `madeForYouData`,
  `popularAlbumsData` imported from `src/components/spotify-main-content`)
  are not part of the provided sources; the agent consumes them as opaque
  ordered lists, so all definitions are parameterized by a `FixtureData`
  record, and a concrete catalog modelled from the spec is used for
  witnesses.
-/

namespace SpotifyAgent

/-- Row of the `tracks` table (schema.ts / agent CREATE TABLE). -/
structure TrackRow where
  id : String
  title : String
  artist : String
  album : String
  albumArt : String
  duration : Int
  createdAt : Int
deriving Repr, DecidableEq, Inhabited

/-- Row of the `recently_played` table. -/
structure RecentlyPlayedRow where
  id : String
  trackId : String
  playedAt : Int
deriving Repr, DecidableEq, Inhabited

/-- Row of the `made_for_you_playlists` table. -/
structure MadeForYouRow where
  id : String
  title : String
  description : String
  image : String
  createdAt : Int
deriving Repr, DecidableEq, Inhabited

/-- Row of the `popular_albums` table. -/
structure PopularAlbumRow where
  id : String
  title : String
  artist : String
  image : String
  duration : Int
  createdAt : Int
deriving Repr, DecidableEq, Inhabited

/-- Shape of a frontend fixture entry (the `Track` interface of the
frontend component: id, title, artist, album, image, duration). -/
structure FrontendTrack where
  id : String
  title : String
  artist : String
  album : String
  image : String
  duration : Int
deriving Repr, DecidableEq, Inhabited

/-- The three fixture arrays the agent imports from the frontend component. -/
structure FixtureData where
  recentlyPlayedData : List FrontendTrack
  madeForYouData : List FrontendTrack
  popularAlbumsData : List FrontendTrack
deriving Repr, DecidableEq, Inhabited

/-- The SQLite database: the four tables the agent manages.  Each table has
an existence flag (whether its schema has been materialized) and its rows
in insertion order. -/
@[ext] structure Store where
  tracksExists : Bool
  tracksRows : List TrackRow
  recentlyPlayedExists : Bool
  recentlyPlayedRows : List RecentlyPlayedRow
  madeForYouExists : Bool
  madeForYouRows : List MadeForYouRow
  popularAlbumsExists : Bool
  popularAlbumsRows : List PopularAlbumRow
deriving Repr, DecidableEq, Inhabited

/-- Existence flag of the table with the given SQL name. -/
def Store.existsFlag (s : Store) (t : String) : Bool :=
  if t = "tracks" then s.tracksExists
  else if t = "recently_played" then s.recentlyPlayedExists
  else if t = "made_for_you_playlists" then s.madeForYouExists
  else if t = "popular_albums" then s.popularAlbumsExists
  else false

/-- Row count of the table with the given SQL name (`select count(*)`). -/
def Store.rowCount (s : Store) (t : String) : Nat :=
  if t = "tracks" then s.tracksRows.length
  else if t = "recently_played" then s.recentlyPlayedRows.length
  else if t = "made_for_you_playlists" then s.madeForYouRows.length
  else if t = "popular_albums" then s.popularAlbumsRows.length
  else 0

/-- Effect of `CREATE TABLE IF NOT EXISTS t`: the schema exists afterwards,
rows are untouched. -/
def Store.setExists (s : Store) (t : String) : Store :=
  if t = "tracks" then { s with tracksExists := true }
  else if t = "recently_played" then { s with recentlyPlayedExists := true }
  else if t = "made_for_you_playlists" then { s with madeForYouExists := true }
  else if t = "popular_albums" then { s with popularAlbumsExists := true }
  else s

/-- The four table names the agent's if/else chains recognize. -/
def isKnownTable (t : String) : Bool :=
  t = "tracks" || t = "recently_played" || t = "made_for_you_playlists" ||
    t = "popular_albums"

/-- One SQL statement or filesystem write attempted by a run, in order. -/
inductive DbEffect where
  | countRead (table : String)
  | createTable (table : String)
  | insertAttempt (table : String) (rowId : String)
  | selectRead (table : String)
  | writeRouteFile (path : String)
deriving Repr, DecidableEq

/-- Errors that abort a run (rethrown by every catch block on the way out). -/
inductive AgentError where
  | classifierNetwork
  | readFailure (table : String)
  | schemaCreationFailure (table : String)
  | insertFailure (table : String)
  | routeWriteFailure (path : String)
deriving Repr, DecidableEq

/-- Injected failures of the external world: driver errors on count reads,
create statements, inserts and verify selects, and filesystem errors on
route writes.  `noFail` injects none. -/
structure FailureSpec where
  countFails : String → Bool
  createFails : String → Bool
  insertFails : String → Bool
  selectFails : String → Bool
  writeFails : String → Bool

/-- Failure specification injecting no failures at all. -/
def noFail : FailureSpec :=
  ⟨fun _ => false, fun _ => false, fun _ => false, fun _ => false, fun _ => false⟩

/-- State threaded through one `processQuery` run: the raw query, the
database, the trace of attempted statements and the route files written. -/
@[ext] structure AgentState where
  query : String
  store : Store
  trace : List DbEffect
  routes : List String
deriving Repr, DecidableEq, Inhabited

/-- Result of a step: normal return, or a thrown error together with the
state at the moment of the throw (committed effects are not rolled back). -/
inductive Res where
  | ok (st : AgentState)
  | err (e : AgentError) (st : AgentState)
deriving Repr, DecidableEq, Inhabited

/-- Sequencing: a thrown error propagates, skipping the continuation. -/
def Res.andThen : Res → (AgentState → Res) → Res
  | .ok st, f => f st
  | .err e st, _ => .err e st

/-- State carried by a result, whether returned or thrown past. -/
def Res.state : Res → AgentState
  | .ok st => st
  | .err _ st => st

/-- Whether the step returned normally. -/
def Res.isOk : Res → Bool
  | .ok _ => true
  | .err _ _ => false

/-- JavaScript `String.prototype.toLowerCase`, character by character. -/
def jsToLowerCase (s : String) : String := ⟨s.data.map Char.toLower⟩

/-- JavaScript `String.prototype.includes`: substring containment. -/
def jsIncludes (s pat : String) : Bool := decide (pat.data <:+: s.data)

/-- Append an effect to the trace. -/
def AgentState.emit (st : AgentState) (e : DbEffect) : AgentState :=
  { st with trace := st.trace ++ [e] }

/-- Update the store. -/
def AgentState.withStore (st : AgentState) (s : Store) : AgentState :=
  { st with store := s }

/-- The agent's `db.select({count}).from(table)`: emits the read, then
either throws (injected failure or missing relation) or returns the count. -/
def dbCount (fs : FailureSpec) (t : String) (st : AgentState) :
    Except (AgentError × AgentState) (Nat × AgentState) :=
  let st' := st.emit (.countRead t)
  if fs.countFails t || !(st.store.existsFlag t) then
    .error (.readFailure t, st')
  else
    .ok (st.store.rowCount t, st')

/-- `createTableIfNotExists` of the agent: for each of the four known names
it runs one `CREATE TABLE IF NOT EXISTS` statement (rethrowing a driver
error); an unknown name matches no branch and runs nothing. -/
def createTableIfNotExists (fs : FailureSpec) (t : String) (st : AgentState) : Res :=
  if isKnownTable t then
    let st' := st.emit (.createTable t)
    if fs.createFails t then .err (.schemaCreationFailure t) st'
    else .ok (st'.withStore (st'.store.setExists t))
  else .ok st

/-- `ensureTableExists` of the agent: attempt a count read of the table
(only the four known names run a query); if and only if the read throws,
fall into the catch block and issue the create statement — the read is not
retried.  A create failure propagates via the outer catch. -/
def ensureTableExists (fs : FailureSpec) (t : String) (st : AgentState) : Res :=
  if isKnownTable t then
    match dbCount fs t st with
    | .ok (_, st') => .ok st'
    | .error (_, st') => createTableIfNotExists fs t st'
  else .ok st

/-- Core of `.values(row).onConflictDoNothing()`: a row whose key is already
present is silently dropped, otherwise it is appended. -/
def insertNoConflict {ρ : Type} (key : ρ → String) (rows : List ρ) (r : ρ) :
    List ρ :=
  if rows.any (fun x => decide (key x = key r)) then rows else rows ++ [r]

/-- `db.insert(tracks).values(...).onConflictDoNothing()`. -/
def dbInsertTrack (fs : FailureSpec) (r : TrackRow) (st : AgentState) : Res :=
  let st' := st.emit (.insertAttempt "tracks" r.id)
  if fs.insertFails "tracks" || !st.store.tracksExists then
    .err (.insertFailure "tracks") st'
  else
    .ok (st'.withStore { st'.store with
      tracksRows := insertNoConflict TrackRow.id st'.store.tracksRows r })

/-- `db.insert(recentlyPlayed).values(...).onConflictDoNothing()`. -/
def dbInsertRecent (fs : FailureSpec) (r : RecentlyPlayedRow) (st : AgentState) : Res :=
  let st' := st.emit (.insertAttempt "recently_played" r.id)
  if fs.insertFails "recently_played" || !st.store.recentlyPlayedExists then
    .err (.insertFailure "recently_played") st'
  else
    .ok (st'.withStore { st'.store with
      recentlyPlayedRows :=
        insertNoConflict RecentlyPlayedRow.id st'.store.recentlyPlayedRows r })

/-- `db.insert(madeForYouPlaylists).values(...).onConflictDoNothing()`. -/
def dbInsertMadeForYou (fs : FailureSpec) (r : MadeForYouRow) (st : AgentState) : Res :=
  let st' := st.emit (.insertAttempt "made_for_you_playlists" r.id)
  if fs.insertFails "made_for_you_playlists" || !st.store.madeForYouExists then
    .err (.insertFailure "made_for_you_playlists") st'
  else
    .ok (st'.withStore { st'.store with
      madeForYouRows :=
        insertNoConflict MadeForYouRow.id st'.store.madeForYouRows r })

/-- `db.insert(popularAlbums).values(...).onConflictDoNothing()`. -/
def dbInsertAlbum (fs : FailureSpec) (r : PopularAlbumRow) (st : AgentState) : Res :=
  let st' := st.emit (.insertAttempt "popular_albums" r.id)
  if fs.insertFails "popular_albums" || !st.store.popularAlbumsExists then
    .err (.insertFailure "popular_albums") st'
  else
    .ok (st'.withStore { st'.store with
      popularAlbumsRows :=
        insertNoConflict PopularAlbumRow.id st'.store.popularAlbumsRows r })

/-- Sequential `for ... of` loop of awaited inserts: the first throw aborts
the rest of the loop. -/
def insertLoop {ι : Type} (step : ι → AgentState → Res) (l : List ι)
    (st : AgentState) : Res :=
  l.foldl (fun r x => r.andThen (step x)) (.ok st)

/-- Track row built from a fixture entry in `populateRecentlyPlayedData`
(`albumArt := track.image`, `createdAt := new Date()`). -/
def trackRowOfFrontend (now : Int) (t : FrontendTrack) : TrackRow :=
  ⟨t.id, t.title, t.artist, t.album, t.image, t.duration, now⟩

/-- History row inserted for fixture index `i`: id `recent-(i+1)`, the
fixture's track id, and `playedAt = Date.now() - i * 60 * 60 * 1000`. -/
def historyRowAt (now : Int) (fx : List FrontendTrack) (i : Nat) :
    RecentlyPlayedRow :=
  ⟨"recent-" ++ Nat.repr (i + 1), (fx.getD i default).id,
    now - (i : Int) * 3600000⟩

/-- `populateRecentlyPlayedData`: count the history table (a throw aborts);
a non-zero count skips population; otherwise insert every fixture's track
row first, then the staggered history rows. -/
def populateRecentlyPlayedData (fs : FailureSpec) (now : Int)
    (fx : List FrontendTrack) (st : AgentState) : Res :=
  match dbCount fs "recently_played" st with
  | .error (e, st') => .err e st'
  | .ok (count, st') =>
    if count > 0 then .ok st'
    else
      (insertLoop (fun t => dbInsertTrack fs (trackRowOfFrontend now t)) fx st').andThen
        (insertLoop (fun i => dbInsertRecent fs (historyRowAt now fx i))
          (List.range fx.length))

/-- Playlist row built from a fixture entry in `populateMadeForYouData`
(the fixture's `artist` field is stored as `description`). -/
def madeForYouRowOfFrontend (now : Int) (t : FrontendTrack) : MadeForYouRow :=
  ⟨t.id, t.title, t.artist, t.image, now⟩

/-- `populateMadeForYouData`: skip when the count is non-zero, otherwise
insert every fixture playlist row. -/
def populateMadeForYouData (fs : FailureSpec) (now : Int)
    (fx : List FrontendTrack) (st : AgentState) : Res :=
  match dbCount fs "made_for_you_playlists" st with
  | .error (e, st') => .err e st'
  | .ok (count, st') =>
    if count > 0 then .ok st'
    else insertLoop (fun t => dbInsertMadeForYou fs (madeForYouRowOfFrontend now t)) fx st'

/-- Album row built from a fixture entry in `populatePopularAlbumsData`. -/
def albumRowOfFrontend (now : Int) (t : FrontendTrack) : PopularAlbumRow :=
  ⟨t.id, t.title, t.artist, t.image, t.duration, now⟩

/-- `populatePopularAlbumsData`: skip when the count is non-zero, otherwise
insert every fixture album row. -/
def populatePopularAlbumsData (fs : FailureSpec) (now : Int)
    (fx : List FrontendTrack) (st : AgentState) : Res :=
  match dbCount fs "popular_albums" st with
  | .error (e, st') => .err e st'
  | .ok (count, st') =>
    if count > 0 then .ok st'
    else insertLoop (fun t => dbInsertAlbum fs (albumRowOfFrontend now t)) fx st'

/-- Verify read of `handleRecentlyPlayed`: the join of `recently_played`
with `tracks`, limit 5; its row count is only logged. -/
def verifyRecentlyPlayed (fs : FailureSpec) (st : AgentState) : Res :=
  let st' := st.emit (.selectRead "recently_played")
  if fs.selectFails "recently_played" || !st.store.recentlyPlayedExists ||
      !st.store.tracksExists then
    .err (.readFailure "recently_played") st'
  else .ok st'

/-- Verify read of `handleMadeForYou` (`select().from(...).limit(5)`). -/
def verifyMadeForYou (fs : FailureSpec) (st : AgentState) : Res :=
  let st' := st.emit (.selectRead "made_for_you_playlists")
  if fs.selectFails "made_for_you_playlists" || !st.store.madeForYouExists then
    .err (.readFailure "made_for_you_playlists") st'
  else .ok st'

/-- Verify read of `handlePopularAlbums`. -/
def verifyPopularAlbums (fs : FailureSpec) (st : AgentState) : Res :=
  let st' := st.emit (.selectRead "popular_albums")
  if fs.selectFails "popular_albums" || !st.store.popularAlbumsExists then
    .err (.readFailure "popular_albums") st'
  else .ok st'

/-- `handleRecentlyPlayed`: ensure the `tracks` and `recently_played`
schemas, populate once, then the verify read. -/
def handleRecentlyPlayed (fs : FailureSpec) (now : Int)
    (fx : List FrontendTrack) (st : AgentState) : Res :=
  (ensureTableExists fs "tracks" st).andThen fun st1 =>
  (ensureTableExists fs "recently_played" st1).andThen fun st2 =>
  (populateRecentlyPlayedData fs now fx st2).andThen fun st3 =>
  verifyRecentlyPlayed fs st3

/-- `handleMadeForYou`: ensure schema, populate once, verify. -/
def handleMadeForYou (fs : FailureSpec) (now : Int)
    (fx : List FrontendTrack) (st : AgentState) : Res :=
  (ensureTableExists fs "made_for_you_playlists" st).andThen fun st1 =>
  (populateMadeForYouData fs now fx st1).andThen fun st2 =>
  verifyMadeForYou fs st2

/-- `handlePopularAlbums`: ensure schema, populate once, verify. -/
def handlePopularAlbums (fs : FailureSpec) (now : Int)
    (fx : List FrontendTrack) (st : AgentState) : Res :=
  (ensureTableExists fs "popular_albums" st).andThen fun st1 =>
  (populatePopularAlbumsData fs now fx st1).andThen fun st2 =>
  verifyPopularAlbums fs st2

/-- Structured intent parsed from the classifier's JSON reply. -/
structure IntentAnalysis where
  operation : String
  tables : List String
  description : String
  needsAPIRoute : Bool
  needsFrontendUpdate : Bool
deriving Repr, DecidableEq, Inhabited

/-- Outcome of the external classifier boundary of `analyzeQuery`: the
`generateContent` call either throws (network error), or returns text whose
`JSON.parse` either succeeds or throws. -/
inductive ClassifierOutcome where
  | parsed (a : IntentAnalysis)
  | unparseable
  | networkError
deriving Repr, DecidableEq, Inhabited

/-- `analyzeQuery`: the awaited `generateContent` call sits outside the
inner try/catch, so a network error propagates and aborts the run; only a
parse failure of the returned text is absorbed by the catch block.  The
parsed analysis is logged and recorded but never used for control flow. -/
def analyzeQuery (c : ClassifierOutcome) (st : AgentState) : Res :=
  match c with
  | .networkError => .err .classifierNetwork st
  | .parsed _ => .ok st
  | .unparseable => .ok st

/-- `executeOperations`: lower-case the query, then run each handler whose
trigger keyword occurs in it, in the fixed order recently played →
made for you → popular albums. -/
def executeOperations (fs : FailureSpec) (now : Int) (fx : FixtureData)
    (st : AgentState) : Res :=
  let query := jsToLowerCase st.query
  ((if jsIncludes query "recently played" then
      handleRecentlyPlayed fs now fx.recentlyPlayedData st
    else .ok st).andThen fun st1 =>
  (if jsIncludes query "made for you" then
      handleMadeForYou fs now fx.madeForYouData st1
    else .ok st1).andThen fun st2 =>
  (if jsIncludes query "popular albums" then
      handlePopularAlbums fs now fx.popularAlbumsData st2
    else .ok st2))

/-- `fs.writeFileSync` of one generated route file: a filesystem error
throws, otherwise the path is recorded as written in this run. -/
def writeRouteFile (fs : FailureSpec) (path : String) (st : AgentState) : Res :=
  let st' := st.emit (.writeRouteFile path)
  if fs.writeFails path then .err (.routeWriteFailure path) st'
  else .ok { st' with routes := st'.routes ++ [path] }

/-- `createAPIRoutes`: write the route file for each triggered entity kind
(same keyword derivation as `executeOperations`). -/
def createAPIRoutes (fs : FailureSpec) (st : AgentState) : Res :=
  let query := jsToLowerCase st.query
  ((if jsIncludes query "recently played" then
      writeRouteFile fs "src/app/api/recently-played/route.ts" st
    else .ok st).andThen fun st1 =>
  (if jsIncludes query "made for you" then
      writeRouteFile fs "src/app/api/made-for-you/route.ts" st1
    else .ok st1).andThen fun st2 =>
  (if jsIncludes query "popular albums" then
      writeRouteFile fs "src/app/api/popular-albums/route.ts" st2
    else .ok st2))

/-- `updateFrontend`: the bonus step only logs; no effect. -/
def updateFrontend (st : AgentState) : Res := .ok st

/-- Fresh per-run state (`processQuery` resets the context). -/
def initState (store : Store) (query : String) : AgentState :=
  ⟨query, store, [], []⟩

/-- `processQuery`: analyze → execute operations → create API routes →
update frontend; the outer catch only logs and rethrows, so the first
thrown error is the run's result. -/
def processQuery (fx : FixtureData) (now : Int) (c : ClassifierOutcome)
    (fs : FailureSpec) (store : Store) (query : String) : Res :=
  (analyzeQuery c (initState store query)).andThen fun st1 =>
  (executeOperations fs now fx st1).andThen fun st2 =>
  (createAPIRoutes fs st2).andThen fun st3 =>
  updateFrontend st3

/-! Committed read endpoints under `src/app/api/*/route.ts`. -/

/-- Element returned by the recently-played endpoint's select clause. -/
structure RecentlyPlayedItem where
  id : String
  title : String
  artist : String
  album : String
  image : String
  duration : Int
  playedAt : Int
deriving Repr, DecidableEq, Inhabited

/-- Element returned by the made-for-you and popular-albums select clauses. -/
structure ApiItem where
  id : String
  title : String
  artist : String
  album : String
  image : String
  duration : Int
deriving Repr, DecidableEq, Inhabited

/-- Keys of the select object of `api/recently-played/route.ts`, in source
order. -/
def recentlyPlayedRouteFields : List String :=
  ["id", "title", "artist", "album", "image", "duration", "playedAt"]

/-- Keys of the select object of `api/made-for-you/route.ts`. -/
def madeForYouRouteFields : List String :=
  ["id", "title", "artist", "album", "image", "duration"]

/-- Keys of the select object of `api/popular-albums/route.ts`. -/
def popularAlbumsRouteFields : List String :=
  ["id", "title", "artist", "album", "image", "duration"]

/-- Modelled from the spec: the uniform element shape the specification
prescribes for every generated read endpoint,
`{id, title, artist, album, image, duration}`. -/
def specUniformShapeFields : List String :=
  ["id", "title", "artist", "album", "image", "duration"]

/-- The `FROM recently_played INNER JOIN tracks ON trackId = tracks.id`
of the recently-played route: each history row paired with its matching
track rows. -/
def recentlyPlayedJoin (s : Store) : List (TrackRow × RecentlyPlayedRow) :=
  s.recentlyPlayedRows.flatMap fun r =>
    (s.tracksRows.filter fun t => decide (t.id = r.trackId)).map fun t => (t, r)

/-- GET of `api/recently-played/route.ts`: join, order by `playedAt`
(ascending, the drizzle default), limit 10, and shape each row. -/
def recentlyPlayedGET (s : Store) : List RecentlyPlayedItem :=
  (((recentlyPlayedJoin s).mergeSort fun a b =>
      decide (a.2.playedAt ≤ b.2.playedAt)).map fun p =>
    ⟨p.1.id, p.1.title, p.1.artist, p.1.album, p.1.albumArt, p.1.duration,
      p.2.playedAt⟩).take 10

/-- GET of `api/made-for-you/route.ts`: description stands in for artist,
title for album, and duration is the fixed default 210. -/
def madeForYouGET (s : Store) : List ApiItem :=
  s.madeForYouRows.map fun p => ⟨p.id, p.title, p.description, p.title, p.image, 210⟩

/-- GET of `api/popular-albums/route.ts`: title stands in for album. -/
def popularAlbumsGET (s : Store) : List ApiItem :=
  s.popularAlbumsRows.map fun a => ⟨a.id, a.title, a.artist, a.title, a.image, a.duration⟩

/-! Concrete data for witnesses. -/

/-- Modelled from the spec: the frontend fixture catalog (the arrays
`recentlyPlayedData`, `madeForYouData`, `popularAlbumsData` of
`src/components/spotify-main-content`, which is not among the provided
sources) — a static, read-only list of candidate rows per entity kind with
unique ids.  Held abstract in every theorem; used only to instantiate
witnesses. -/
def specCatalog : FixtureData :=
  ⟨[⟨"track-1", "Midnight City", "M83", "Hurry Up", "/img/1.jpg", 243⟩,
    ⟨"track-2", "Instant Crush", "Daft Punk", "RAM", "/img/2.jpg", 337⟩,
    ⟨"track-3", "Nightcall", "Kavinsky", "OutRun", "/img/3.jpg", 258⟩,
    ⟨"track-4", "Genesis", "Grimes", "Visions", "/img/4.jpg", 255⟩],
   [⟨"playlist-1", "Daily Mix 1", "Curated for you", "Mix", "/img/p1.jpg", 210⟩,
    ⟨"playlist-2", "Discover Weekly", "Fresh finds", "Mix", "/img/p2.jpg", 210⟩],
   [⟨"album-1", "Random Access Memories", "Daft Punk", "Album", "/img/a1.jpg", 4453⟩,
    ⟨"album-2", "Hurry Up, We Are Dreaming", "M83", "Album", "/img/a2.jpg", 4380⟩]⟩

/-- A store in which all four schemas exist and every table is empty. -/
def emptyTablesStore : Store := ⟨true, [], true, [], true, [], true, []⟩

/-- A store with no schema materialized at all. -/
def freshStore : Store := ⟨false, [], false, [], false, [], false, []⟩

/-- The first self-test query of the repository. -/
def testQuery1 : String := "Can you store the recently played songs in a table"

/-- The second self-test query of the repository. -/
def testQuery2 : String := "Can you store the 'Made for you' and 'Popular albums' in a table"

/-! Helper lemmas about the conflict-tolerant insert. -/

theorem insertNoConflict_of_conflict {ρ : Type} (key : ρ → String)
    (rows : List ρ) (r : ρ) (h : ∃ x ∈ rows, key x = key r) :
    insertNoConflict key rows r = rows := by
  have hc : rows.any (fun x => decide (key x = key r)) = true := by
    rw [List.any_eq_true]
    obtain ⟨x, hx, hk⟩ := h
    exact ⟨x, hx, by simp [hk]⟩
  unfold insertNoConflict
  rw [hc]
  simp

theorem insertNoConflict_of_fresh {ρ : Type} (key : ρ → String)
    (rows : List ρ) (r : ρ) (h : ∀ x ∈ rows, key x ≠ key r) :
    insertNoConflict key rows r = rows ++ [r] := by
  have hc : rows.any (fun x => decide (key x = key r)) = false := by
    rw [List.any_eq_false]
    intro x hx
    simp only [decide_eq_true_eq]
    exact h x hx
  unfold insertNoConflict
  rw [hc]
  simp

theorem length_le_insertNoConflict {ρ : Type} (key : ρ → String)
    (rows : List ρ) (r : ρ) :
    rows.length ≤ (insertNoConflict key rows r).length := by
  unfold insertNoConflict
  split <;> simp

theorem key_mem_insertNoConflict {ρ : Type} (key : ρ → String)
    (rows : List ρ) (r : ρ) :
    key r ∈ (insertNoConflict key rows r).map key := by
  unfold insertNoConflict
  split
  · next h =>
    rw [List.any_eq_true] at h
    obtain ⟨x, hx, hk⟩ := h
    simp only [decide_eq_true_eq] at hk
    exact hk ▸ List.mem_map_of_mem key hx
  · simp

theorem mem_map_insertNoConflict {ρ : Type} (key : ρ → String)
    (rows : List ρ) (r : ρ) {a : String} (h : a ∈ rows.map key) :
    a ∈ (insertNoConflict key rows r).map key := by
  unfold insertNoConflict
  split
  · exact h
  · simp only [List.map_append, List.mem_append]
    exact Or.inl h

theorem mem_of_mem_foldl_insertNoConflict {ρ ι : Type} (key : ρ → String)
    (mk : ι → ρ) :
    ∀ (l : List ι) (acc : List ρ) (x : ρ),
      x ∈ l.foldl (fun rows y => insertNoConflict key rows (mk y)) acc →
      x ∈ acc ∨ x ∈ l.map mk := by
  intro l
  induction l with
  | nil => intro acc x hx; exact Or.inl hx
  | cons y ys ih =>
    intro acc x hx
    simp only [List.foldl_cons] at hx
    cases ih _ x hx with
    | inl h =>
      by_cases hc : acc.any (fun z => decide (key z = key (mk y))) = true
      · rw [insertNoConflict, if_pos hc] at h
        exact Or.inl h
      · rw [insertNoConflict, if_neg hc] at h
        cases List.mem_append.mp h with
        | inl h' => exact Or.inl h'
        | inr h' =>
          have hx' : x = mk y := List.mem_singleton.mp h'
          subst hx'
          exact Or.inr (List.mem_map_of_mem mk (List.mem_cons_self y ys))
    | inr h =>
      obtain ⟨z, hz, rfl⟩ := List.mem_map.mp h
      exact Or.inr (List.mem_map_of_mem mk (List.mem_cons_of_mem y hz))

theorem mem_map_foldl_insertNoConflict {ρ ι : Type} (key : ρ → String)
    (mk : ι → ρ) :
    ∀ (l : List ι) (acc : List ρ) (a : String), a ∈ acc.map key →
      a ∈ (l.foldl (fun rows y => insertNoConflict key rows (mk y)) acc).map key := by
  intro l
  induction l with
  | nil => intro acc a ha; exact ha
  | cons y ys ih =>
    intro acc a ha
    simp only [List.foldl_cons]
    exact ih _ a (mem_map_insertNoConflict key _ _ ha)

theorem key_mem_foldl_insertNoConflict {ρ ι : Type} (key : ρ → String)
    (mk : ι → ρ) :
    ∀ (l : List ι) (acc : List ρ) (y : ι), y ∈ l →
      key (mk y) ∈ (l.foldl (fun rows z => insertNoConflict key rows (mk z)) acc).map key := by
  intro l
  induction l with
  | nil => intro acc y hy; cases hy
  | cons z zs ih =>
    intro acc y hy
    simp only [List.foldl_cons]
    cases List.mem_cons.mp hy with
    | inl h =>
      subst h
      exact mem_map_foldl_insertNoConflict key mk zs _ _
        (key_mem_insertNoConflict key acc (mk y))
    | inr h => exact ih _ y h

theorem length_le_foldl_insertNoConflict {ρ ι : Type} (key : ρ → String)
    (mk : ι → ρ) :
    ∀ (l : List ι) (acc : List ρ),
      acc.length ≤ (l.foldl (fun rows y => insertNoConflict key rows (mk y)) acc).length := by
  intro l
  induction l with
  | nil => intro acc; exact le_rfl
  | cons y ys ih =>
    intro acc
    simp only [List.foldl_cons]
    exact le_trans (length_le_insertNoConflict key acc (mk y)) (ih _)

theorem foldl_insertNoConflict_of_nodup {ρ ι : Type} (key : ρ → String)
    (mk : ι → ρ) :
    ∀ (l : List ι) (acc : List ρ),
      (l.map fun y => key (mk y)).Nodup →
      (∀ y ∈ l, ∀ a ∈ acc, key a ≠ key (mk y)) →
      l.foldl (fun rows y => insertNoConflict key rows (mk y)) acc = acc ++ l.map mk := by
  intro l
  induction l with
  | nil => intro acc _ _; simp
  | cons y ys ih =>
    intro acc hnd hfresh
    simp only [List.map_cons, List.nodup_cons] at hnd
    simp only [List.foldl_cons]
    rw [insertNoConflict_of_fresh key acc (mk y)
      (fun a ha => hfresh y (List.mem_cons_self y ys) a ha)]
    rw [ih (acc ++ [mk y]) hnd.2 ?_]
    · simp
    · intro z hz a ha
      rcases List.mem_append.mp ha with h | h
      · exact hfresh z (List.mem_cons_of_mem y hz) a h
      · simp only [List.mem_singleton] at h
        subst h
        intro hk
        exact hnd.1 (hk ▸ List.mem_map_of_mem (fun w => key (mk w)) hz)

/-! Characterizations of the insert primitives and loops when no insert
failure is injected. -/

theorem foldl_andThen_err {ι : Type} (step : ι → AgentState → Res) :
    ∀ (l : List ι) (e : AgentError) (st : AgentState),
      List.foldl (fun r x => r.andThen (step x)) (Res.err e st) l = Res.err e st := by
  intro l
  induction l with
  | nil => intro e st; rfl
  | cons x xs ih => intro e st; simp only [List.foldl_cons, Res.andThen]; exact ih e st

theorem insertLoop_cons {ι : Type} (step : ι → AgentState → Res) (x : ι)
    (l : List ι) (st : AgentState) :
    insertLoop step (x :: l) st =
      (step x st).andThen fun st' => insertLoop step l st' := by
  unfold insertLoop
  rw [List.foldl_cons]
  cases hstep : step x st with
  | ok st' =>
    have h2 : (Res.ok st).andThen (step x) = Res.ok st' := by
      simp only [Res.andThen]; exact hstep
    rw [h2]
    rfl
  | err e st' =>
    have h2 : (Res.ok st).andThen (step x) = Res.err e st' := by
      simp only [Res.andThen]; exact hstep
    rw [h2]
    exact foldl_andThen_err step l e st'

theorem dbInsertTrack_ok (fs : FailureSpec) (now : Int) (t : FrontendTrack)
    (st : AgentState) (h1 : fs.insertFails "tracks" = false)
    (h2 : st.store.tracksExists = true) :
    dbInsertTrack fs (trackRowOfFrontend now t) st =
      .ok { st with
        store := { st.store with
          tracksRows := insertNoConflict TrackRow.id st.store.tracksRows (trackRowOfFrontend now t) },
        trace := st.trace ++ [.insertAttempt "tracks" t.id] } := by
  simp [dbInsertTrack, AgentState.emit, AgentState.withStore, h1, h2,
    trackRowOfFrontend]

theorem dbInsertRecent_ok (fs : FailureSpec) (r : RecentlyPlayedRow)
    (st : AgentState) (h1 : fs.insertFails "recently_played" = false)
    (h2 : st.store.recentlyPlayedExists = true) :
    dbInsertRecent fs r st =
      .ok { st with
        store := { st.store with
          recentlyPlayedRows := insertNoConflict RecentlyPlayedRow.id st.store.recentlyPlayedRows r },
        trace := st.trace ++ [.insertAttempt "recently_played" r.id] } := by
  simp [dbInsertRecent, AgentState.emit, AgentState.withStore, h1, h2]

theorem dbInsertMadeForYou_ok (fs : FailureSpec) (r : MadeForYouRow)
    (st : AgentState) (h1 : fs.insertFails "made_for_you_playlists" = false)
    (h2 : st.store.madeForYouExists = true) :
    dbInsertMadeForYou fs r st =
      .ok { st with
        store := { st.store with
          madeForYouRows := insertNoConflict MadeForYouRow.id st.store.madeForYouRows r },
        trace := st.trace ++ [.insertAttempt "made_for_you_playlists" r.id] } := by
  simp [dbInsertMadeForYou, AgentState.emit, AgentState.withStore, h1, h2]

theorem dbInsertAlbum_ok (fs : FailureSpec) (r : PopularAlbumRow)
    (st : AgentState) (h1 : fs.insertFails "popular_albums" = false)
    (h2 : st.store.popularAlbumsExists = true) :
    dbInsertAlbum fs r st =
      .ok { st with
        store := { st.store with
          popularAlbumsRows := insertNoConflict PopularAlbumRow.id st.store.popularAlbumsRows r },
        trace := st.trace ++ [.insertAttempt "popular_albums" r.id] } := by
  simp [dbInsertAlbum, AgentState.emit, AgentState.withStore, h1, h2]

/-- Result of the tracks insert loop of `populateRecentlyPlayedData`. -/
theorem insertTracksLoop_ok (fs : FailureSpec) (now : Int) :
    ∀ (fx : List FrontendTrack) (st : AgentState),
      fs.insertFails "tracks" = false → st.store.tracksExists = true →
      insertLoop (fun t => dbInsertTrack fs (trackRowOfFrontend now t)) fx st =
        .ok { st with
          store := { st.store with
            tracksRows := fx.foldl (fun rows t =>
              insertNoConflict TrackRow.id rows (trackRowOfFrontend now t))
              st.store.tracksRows },
          trace := st.trace ++ fx.map fun t => .insertAttempt "tracks" t.id } := by
  intro fx
  induction fx with
  | nil => intro st _ _; simp [insertLoop]
  | cons t ts ih =>
    intro st h1 h2
    have hstep := dbInsertTrack_ok fs now t st h1 h2
    have hrest := ih { st with
        store := { st.store with
          tracksRows := insertNoConflict TrackRow.id st.store.tracksRows (trackRowOfFrontend now t) },
        trace := st.trace ++ [DbEffect.insertAttempt "tracks" t.id] } h1 h2
    rw [insertLoop_cons, hstep]
    simp only [Res.andThen]
    rw [hrest]
    simp [List.foldl_cons, List.append_assoc]

/-- Result of the history insert loop of `populateRecentlyPlayedData`, over
any index list. -/
theorem insertRecentLoop_ok (fs : FailureSpec) (now : Int)
    (fx : List FrontendTrack) :
    ∀ (l : List Nat) (st : AgentState),
      fs.insertFails "recently_played" = false →
      st.store.recentlyPlayedExists = true →
      insertLoop (fun i => dbInsertRecent fs (historyRowAt now fx i)) l st =
        .ok { st with
          store := { st.store with
            recentlyPlayedRows := l.foldl (fun rows i =>
              insertNoConflict RecentlyPlayedRow.id rows (historyRowAt now fx i))
              st.store.recentlyPlayedRows },
          trace := st.trace ++
            l.map fun i => .insertAttempt "recently_played" (historyRowAt now fx i).id } := by
  intro l
  induction l with
  | nil => intro st _ _; simp [insertLoop]
  | cons i il ih =>
    intro st h1 h2
    have hstep := dbInsertRecent_ok fs (historyRowAt now fx i) st h1 h2
    have hrest := ih { st with
        store := { st.store with
          recentlyPlayedRows := insertNoConflict RecentlyPlayedRow.id st.store.recentlyPlayedRows (historyRowAt now fx i) },
        trace := st.trace ++ [DbEffect.insertAttempt "recently_played" (historyRowAt now fx i).id] } h1 h2
    rw [insertLoop_cons, hstep]
    simp only [Res.andThen]
    rw [hrest]
    simp [List.foldl_cons, List.append_assoc]

/-- Result of the insert loop of `populateMadeForYouData`. -/
theorem insertMadeForYouLoop_ok (fs : FailureSpec) (now : Int) :
    ∀ (fx : List FrontendTrack) (st : AgentState),
      fs.insertFails "made_for_you_playlists" = false →
      st.store.madeForYouExists = true →
      insertLoop (fun t => dbInsertMadeForYou fs (madeForYouRowOfFrontend now t)) fx st =
        .ok { st with
          store := { st.store with
            madeForYouRows := fx.foldl (fun rows t =>
              insertNoConflict MadeForYouRow.id rows (madeForYouRowOfFrontend now t))
              st.store.madeForYouRows },
          trace := st.trace ++
            fx.map fun t => .insertAttempt "made_for_you_playlists" t.id } := by
  intro fx
  induction fx with
  | nil => intro st _ _; simp [insertLoop]
  | cons t ts ih =>
    intro st h1 h2
    have hstep := dbInsertMadeForYou_ok fs (madeForYouRowOfFrontend now t) st h1 h2
    have hrest := ih { st with
        store := { st.store with
          madeForYouRows := insertNoConflict MadeForYouRow.id st.store.madeForYouRows (madeForYouRowOfFrontend now t) },
        trace := st.trace ++ [DbEffect.insertAttempt "made_for_you_playlists" (madeForYouRowOfFrontend now t).id] } h1 h2
    rw [insertLoop_cons, hstep]
    simp only [Res.andThen]
    rw [hrest]
    simp [List.foldl_cons, List.append_assoc, madeForYouRowOfFrontend]

/-- Result of the insert loop of `populatePopularAlbumsData`. -/
theorem insertAlbumLoop_ok (fs : FailureSpec) (now : Int) :
    ∀ (fx : List FrontendTrack) (st : AgentState),
      fs.insertFails "popular_albums" = false →
      st.store.popularAlbumsExists = true →
      insertLoop (fun t => dbInsertAlbum fs (albumRowOfFrontend now t)) fx st =
        .ok { st with
          store := { st.store with
            popularAlbumsRows := fx.foldl (fun rows t =>
              insertNoConflict PopularAlbumRow.id rows (albumRowOfFrontend now t))
              st.store.popularAlbumsRows },
          trace := st.trace ++
            fx.map fun t => .insertAttempt "popular_albums" t.id } := by
  intro fx
  induction fx with
  | nil => intro st _ _; simp [insertLoop]
  | cons t ts ih =>
    intro st h1 h2
    have hstep := dbInsertAlbum_ok fs (albumRowOfFrontend now t) st h1 h2
    have hrest := ih { st with
        store := { st.store with
          popularAlbumsRows := insertNoConflict PopularAlbumRow.id st.store.popularAlbumsRows (albumRowOfFrontend now t) },
        trace := st.trace ++ [DbEffect.insertAttempt "popular_albums" (albumRowOfFrontend now t).id] } h1 h2
    rw [insertLoop_cons, hstep]
    simp only [Res.andThen]
    rw [hrest]
    simp [List.foldl_cons, List.append_assoc, albumRowOfFrontend]

/-! Schema-ensuring lemmas. -/

theorem Store.setExists_of_flag (s : Store) (t : String)
    (h : s.existsFlag t = true) : s.setExists t = s := by
  cases s
  simp only [Store.existsFlag, Store.setExists] at *
  split_ifs at h ⊢ <;> simp_all

theorem Store.existsFlag_setExists (s : Store) (t : String)
    (ht : isKnownTable t = true) : (s.setExists t).existsFlag t = true := by
  simp only [isKnownTable, Bool.or_eq_true, decide_eq_true_eq] at ht
  rcases ht with ((rfl | rfl) | rfl) | rfl <;>
    simp [Store.setExists, Store.existsFlag]

theorem Store.rowCount_setExists (s : Store) (t t' : String) :
    (s.setExists t').rowCount t = s.rowCount t := by
  cases s
  simp only [Store.setExists, Store.rowCount]
  split_ifs <;> rfl

theorem ensureTableExists_noFail (t : String) (ht : isKnownTable t = true)
    (st : AgentState) :
    ensureTableExists noFail t st =
      .ok { st with
        store := st.store.setExists t,
        trace := st.trace ++ (if st.store.existsFlag t then [.countRead t]
          else [.countRead t, .createTable t]) } := by
  unfold ensureTableExists dbCount createTableIfNotExists
  rw [ht]
  cases hf : st.store.existsFlag t with
  | true =>
    simp [hf, noFail, AgentState.emit, Store.setExists_of_flag st.store t hf]
  | false =>
    simp [hf, ht, noFail, AgentState.emit, AgentState.withStore]

theorem ensureTableExists_trace (fs : FailureSpec) (t : String)
    (ht : isKnownTable t = true) (st : AgentState) :
    (ensureTableExists fs t st).state.trace =
      st.trace ++ (if fs.countFails t || !(st.store.existsFlag t)
        then [DbEffect.countRead t, DbEffect.createTable t]
        else [DbEffect.countRead t]) := by
  unfold ensureTableExists dbCount createTableIfNotExists
  rw [ht]
  cases hc : (fs.countFails t || !(st.store.existsFlag t)) with
  | false => simp [hc, AgentState.emit, Res.state]
  | true =>
    cases hcr : fs.createFails t with
    | false => simp [hc, ht, hcr, AgentState.emit, AgentState.withStore, Res.state]
    | true => simp [hc, ht, hcr, AgentState.emit, Res.state]

/-! Populate-once lemmas. -/

theorem populateRecentlyPlayed_skip (fs : FailureSpec) (now : Int)
    (fx : List FrontendTrack) (st : AgentState)
    (hex : st.store.recentlyPlayedExists = true)
    (hcf : fs.countFails "recently_played" = false)
    (hpos : 0 < st.store.recentlyPlayedRows.length) :
    populateRecentlyPlayedData fs now fx st =
      .ok (st.emit (.countRead "recently_played")) := by
  unfold populateRecentlyPlayedData dbCount
  simp [hex, hcf, Store.existsFlag, Store.rowCount, hpos]

theorem populateRecentlyPlayed_seed (now : Int) (fx : List FrontendTrack)
    (st : AgentState)
    (hex : st.store.recentlyPlayedExists = true)
    (htr : st.store.tracksExists = true)
    (hempty : st.store.recentlyPlayedRows = []) :
    populateRecentlyPlayedData noFail now fx st =
      .ok { st with
        store := { st.store with
          tracksRows := fx.foldl (fun rows t =>
            insertNoConflict TrackRow.id rows (trackRowOfFrontend now t))
            st.store.tracksRows,
          recentlyPlayedRows := (List.range fx.length).foldl (fun rows i =>
            insertNoConflict RecentlyPlayedRow.id rows (historyRowAt now fx i)) [] },
        trace := st.trace ++ [.countRead "recently_played"] ++
          (fx.map fun t => .insertAttempt "tracks" t.id) ++
          ((List.range fx.length).map fun i =>
            .insertAttempt "recently_played" (historyRowAt now fx i).id) } := by
  have hflag : st.store.existsFlag "recently_played" = true := by
    simp [Store.existsFlag, hex]
  have hcount : st.store.rowCount "recently_played" = 0 := by
    simp [Store.rowCount, hempty]
  have hdb : dbCount noFail "recently_played" st =
      .ok (0, st.emit (.countRead "recently_played")) := by
    unfold dbCount
    simp [hflag, hcount, noFail]
  have h4 := insertTracksLoop_ok noFail now fx (st.emit (.countRead "recently_played"))
    rfl htr
  have h5 := insertRecentLoop_ok noFail now fx (List.range fx.length)
    { st.emit (.countRead "recently_played") with
      store := { (st.emit (.countRead "recently_played")).store with
        tracksRows := fx.foldl (fun rows t =>
          insertNoConflict TrackRow.id rows (trackRowOfFrontend now t))
          (st.emit (.countRead "recently_played")).store.tracksRows },
      trace := (st.emit (.countRead "recently_played")).trace ++
        (fx.map fun t => DbEffect.insertAttempt "tracks" t.id) } rfl hex
  unfold populateRecentlyPlayedData
  rw [hdb]
  simp only [gt_iff_lt, Nat.lt_irrefl, if_false, ite_false]
  rw [h4]
  simp only [Res.andThen]
  rw [h5]
  simp [AgentState.emit, List.append_assoc, hempty]

theorem populateMadeForYou_skip (fs : FailureSpec) (now : Int)
    (fx : List FrontendTrack) (st : AgentState)
    (hex : st.store.madeForYouExists = true)
    (hcf : fs.countFails "made_for_you_playlists" = false)
    (hpos : 0 < st.store.madeForYouRows.length) :
    populateMadeForYouData fs now fx st =
      .ok (st.emit (.countRead "made_for_you_playlists")) := by
  unfold populateMadeForYouData dbCount
  simp [hex, hcf, Store.existsFlag, Store.rowCount, hpos]

theorem populateMadeForYou_seed (now : Int) (fx : List FrontendTrack)
    (st : AgentState)
    (hex : st.store.madeForYouExists = true)
    (hempty : st.store.madeForYouRows = []) :
    populateMadeForYouData noFail now fx st =
      .ok { st with
        store := { st.store with
          madeForYouRows := fx.foldl (fun rows t =>
            insertNoConflict MadeForYouRow.id rows (madeForYouRowOfFrontend now t))
            st.store.madeForYouRows },
        trace := st.trace ++ [.countRead "made_for_you_playlists"] ++
          (fx.map fun t => .insertAttempt "made_for_you_playlists" t.id) } := by
  have hflag : st.store.existsFlag "made_for_you_playlists" = true := by
    simp [Store.existsFlag, hex]
  have hcount : st.store.rowCount "made_for_you_playlists" = 0 := by
    simp [Store.rowCount, hempty]
  have hdb : dbCount noFail "made_for_you_playlists" st =
      .ok (0, st.emit (.countRead "made_for_you_playlists")) := by
    unfold dbCount
    simp [hflag, hcount, noFail]
  have h4 := insertMadeForYouLoop_ok noFail now fx
    (st.emit (.countRead "made_for_you_playlists")) rfl hex
  unfold populateMadeForYouData
  rw [hdb]
  simp only [gt_iff_lt, Nat.lt_irrefl, if_false, ite_false]
  rw [h4]
  simp [AgentState.emit, List.append_assoc]

theorem populatePopularAlbums_skip (fs : FailureSpec) (now : Int)
    (fx : List FrontendTrack) (st : AgentState)
    (hex : st.store.popularAlbumsExists = true)
    (hcf : fs.countFails "popular_albums" = false)
    (hpos : 0 < st.store.popularAlbumsRows.length) :
    populatePopularAlbumsData fs now fx st =
      .ok (st.emit (.countRead "popular_albums")) := by
  unfold populatePopularAlbumsData dbCount
  simp [hex, hcf, Store.existsFlag, Store.rowCount, hpos]

theorem populatePopularAlbums_seed (now : Int) (fx : List FrontendTrack)
    (st : AgentState)
    (hex : st.store.popularAlbumsExists = true)
    (hempty : st.store.popularAlbumsRows = []) :
    populatePopularAlbumsData noFail now fx st =
      .ok { st with
        store := { st.store with
          popularAlbumsRows := fx.foldl (fun rows t =>
            insertNoConflict PopularAlbumRow.id rows (albumRowOfFrontend now t))
            st.store.popularAlbumsRows },
        trace := st.trace ++ [.countRead "popular_albums"] ++
          (fx.map fun t => .insertAttempt "popular_albums" t.id) } := by
  have hflag : st.store.existsFlag "popular_albums" = true := by
    simp [Store.existsFlag, hex]
  have hcount : st.store.rowCount "popular_albums" = 0 := by
    simp [Store.rowCount, hempty]
  have hdb : dbCount noFail "popular_albums" st =
      .ok (0, st.emit (.countRead "popular_albums")) := by
    unfold dbCount
    simp [hflag, hcount, noFail]
  have h4 := insertAlbumLoop_ok noFail now fx
    (st.emit (.countRead "popular_albums")) rfl hex
  unfold populatePopularAlbumsData
  rw [hdb]
  simp only [gt_iff_lt, Nat.lt_irrefl, if_false, ite_false]
  rw [h4]
  simp [AgentState.emit, List.append_assoc]

/-! Verify-read lemmas. -/

theorem verifyRecentlyPlayed_ok (st : AgentState)
    (h1 : st.store.recentlyPlayedExists = true)
    (h2 : st.store.tracksExists = true) :
    verifyRecentlyPlayed noFail st = .ok (st.emit (.selectRead "recently_played")) := by
  simp [verifyRecentlyPlayed, noFail, h1, h2]

theorem verifyMadeForYou_ok (st : AgentState)
    (h1 : st.store.madeForYouExists = true) :
    verifyMadeForYou noFail st = .ok (st.emit (.selectRead "made_for_you_playlists")) := by
  simp [verifyMadeForYou, noFail, h1]

theorem verifyPopularAlbums_ok (st : AgentState)
    (h1 : st.store.popularAlbumsExists = true) :
    verifyPopularAlbums noFail st = .ok (st.emit (.selectRead "popular_albums")) := by
  simp [verifyPopularAlbums, noFail, h1]

/-! Normalization of `setExists` at the four concrete table names. -/

theorem setExists_tracks (s : Store) :
    s.setExists "tracks" = { s with tracksExists := true } := by
  simp [Store.setExists]

theorem setExists_recent (s : Store) :
    s.setExists "recently_played" = { s with recentlyPlayedExists := true } := by
  simp [Store.setExists]

theorem setExists_mfy (s : Store) :
    s.setExists "made_for_you_playlists" = { s with madeForYouExists := true } := by
  simp [Store.setExists]

theorem setExists_pa (s : Store) :
    s.setExists "popular_albums" = { s with popularAlbumsExists := true } := by
  simp [Store.setExists]

theorem ensureTableExists_exists (t : String) (ht : isKnownTable t = true)
    (st : AgentState) (hf : st.store.existsFlag t = true) :
    ensureTableExists noFail t st = .ok (st.emit (.countRead t)) := by
  rw [ensureTableExists_noFail t ht st]
  simp [hf, Store.setExists_of_flag st.store t hf, AgentState.emit]

/-- Existential form of a schema-ensuring step under no injected failures. -/
theorem ensureTableExists_run (t : String) (ht : isKnownTable t = true)
    (st : AgentState) :
    ∃ st', ensureTableExists noFail t st = .ok st' ∧
      st'.query = st.query ∧ st'.routes = st.routes ∧
      st'.store = st.store.setExists t ∧
      ∃ d, st'.trace = st.trace ++ d ∧ DbEffect.countRead t ∈ d := by
  rw [ensureTableExists_noFail t ht st]
  refine ⟨_, rfl, rfl, rfl, rfl, ?_⟩
  cases hf : st.store.existsFlag t <;> simp [hf]

/-- Positivity of the seeded history table. -/
theorem histFold_pos (now : Int) (fx : List FrontendTrack)
    (hn : 0 < fx.length) :
    0 < ((List.range fx.length).foldl (fun rows i =>
      insertNoConflict RecentlyPlayedRow.id rows (historyRowAt now fx i)) []).length := by
  obtain ⟨n, hn'⟩ : ∃ n, fx.length = n + 1 := ⟨fx.length - 1, by omega⟩
  rw [hn', List.range_succ_eq_map, List.foldl_cons]
  have h0 : insertNoConflict RecentlyPlayedRow.id [] (historyRowAt now fx 0) =
      [historyRowAt now fx 0] := by
    simp [insertNoConflict]
  rw [h0]
  calc (0 : Nat) < 1 := one_pos
    _ = ([historyRowAt now fx 0].length) := rfl
    _ ≤ _ := length_le_foldl_insertNoConflict RecentlyPlayedRow.id
        (fun i => historyRowAt now fx i) (List.map Nat.succ (List.range n))
        [historyRowAt now fx 0]

/-- Existential form of the recently-played populate step. -/
theorem populateRecentlyPlayed_run (now : Int) (fx : List FrontendTrack)
    (st : AgentState)
    (hex : st.store.recentlyPlayedExists = true)
    (htr : st.store.tracksExists = true) :
    ∃ st', populateRecentlyPlayedData noFail now fx st = .ok st' ∧
      st'.query = st.query ∧ st'.routes = st.routes ∧
      (∃ d, st'.trace = st.trace ++ d) ∧
      st'.store.tracksExists = true ∧
      st'.store.recentlyPlayedExists = true ∧
      st'.store.madeForYouExists = st.store.madeForYouExists ∧
      st'.store.madeForYouRows = st.store.madeForYouRows ∧
      st'.store.popularAlbumsExists = st.store.popularAlbumsExists ∧
      st'.store.popularAlbumsRows = st.store.popularAlbumsRows ∧
      (0 < fx.length → 0 < st'.store.recentlyPlayedRows.length) := by
  by_cases hrow : st.store.recentlyPlayedRows = []
  · rw [populateRecentlyPlayed_seed now fx st hex htr hrow]
    refine ⟨_, rfl, rfl, rfl, ⟨[DbEffect.countRead "recently_played"] ++
      (fx.map fun t => DbEffect.insertAttempt "tracks" t.id) ++
      ((List.range fx.length).map fun i =>
        DbEffect.insertAttempt "recently_played" (historyRowAt now fx i).id), ?_⟩,
      htr, hex, rfl, rfl, rfl, rfl, ?_⟩
    · simp [List.append_assoc]
    · intro hn
      exact histFold_pos now fx hn
  · have hpos : 0 < st.store.recentlyPlayedRows.length :=
      List.length_pos.mpr hrow
    rw [populateRecentlyPlayed_skip noFail now fx st hex rfl hpos]
    exact ⟨_, rfl, rfl, rfl, ⟨_, rfl⟩, htr, hex, rfl, rfl, rfl, rfl, fun _ => hpos⟩

/-- Existential form of one full `handleRecentlyPlayed` run under no
injected failures: it always succeeds, leaves both schemas materialized,
does not touch the other two tables, populates the history table whenever
the fixture list is non-empty, and reads both tables. -/
theorem handleRecentlyPlayed_run (now : Int) (fx : List FrontendTrack)
    (st : AgentState) :
    ∃ st', handleRecentlyPlayed noFail now fx st = .ok st' ∧
      st'.query = st.query ∧ st'.routes = st.routes ∧
      (∃ d, st'.trace = st.trace ++ d) ∧
      st'.store.tracksExists = true ∧
      st'.store.recentlyPlayedExists = true ∧
      st'.store.madeForYouExists = st.store.madeForYouExists ∧
      st'.store.madeForYouRows = st.store.madeForYouRows ∧
      st'.store.popularAlbumsExists = st.store.popularAlbumsExists ∧
      st'.store.popularAlbumsRows = st.store.popularAlbumsRows ∧
      (0 < fx.length → 0 < st'.store.recentlyPlayedRows.length) ∧
      DbEffect.countRead "tracks" ∈ st'.trace ∧
      DbEffect.countRead "recently_played" ∈ st'.trace := by
  obtain ⟨st1, he1, hq1, hr1, hs1, d1, ht1, hm1⟩ :=
    ensureTableExists_run "tracks" (by decide) st
  obtain ⟨st2, he2, hq2, hr2, hs2, d2, ht2, hm2⟩ :=
    ensureTableExists_run "recently_played" (by decide) st1
  have hex2 : st2.store.recentlyPlayedExists = true := by
    rw [hs2, hs1, setExists_tracks, setExists_recent]
  have htr2 : st2.store.tracksExists = true := by
    rw [hs2, hs1, setExists_tracks, setExists_recent]
  obtain ⟨st3, he3, hq3, hr3, ⟨d3, ht3⟩, htr3, hex3, hmfe3, hmfr3, hpae3,
    hpar3, hpos3⟩ := populateRecentlyPlayed_run now fx st2 hex2 htr2
  unfold handleRecentlyPlayed
  rw [he1]
  simp only [Res.andThen]
  rw [he2]
  simp only [Res.andThen]
  rw [he3]
  simp only [Res.andThen]
  rw [verifyRecentlyPlayed_ok st3 hex3 htr3]
  refine ⟨_, rfl, hq3.trans (hq2.trans hq1), hr3.trans (hr2.trans hr1),
    ⟨d1 ++ (d2 ++ (d3 ++ [DbEffect.selectRead "recently_played"])), ?_⟩,
    htr3, hex3, ?_, ?_, ?_, ?_, hpos3, ?_, ?_⟩
  · simp [AgentState.emit, ht3, ht2, ht1, List.append_assoc]
  · exact hmfe3.trans (by rw [hs2, hs1, setExists_tracks, setExists_recent])
  · exact hmfr3.trans (by rw [hs2, hs1, setExists_tracks, setExists_recent])
  · exact hpae3.trans (by rw [hs2, hs1, setExists_tracks, setExists_recent])
  · exact hpar3.trans (by rw [hs2, hs1, setExists_tracks, setExists_recent])
  · simp only [AgentState.emit, ht3, ht2, ht1]
    simp [hm1]
  · simp only [AgentState.emit, ht3, ht2, ht1]
    simp [hm2]

/-- Existential form of the made-for-you populate step. -/
theorem populateMadeForYou_run (now : Int) (fx : List FrontendTrack)
    (st : AgentState) (hex : st.store.madeForYouExists = true) :
    ∃ st', populateMadeForYouData noFail now fx st = .ok st' ∧
      st'.query = st.query ∧ st'.routes = st.routes ∧
      (∃ d, st'.trace = st.trace ++ d) ∧
      st'.store.madeForYouExists = true ∧
      st'.store.tracksExists = st.store.tracksExists ∧
      st'.store.tracksRows = st.store.tracksRows ∧
      st'.store.recentlyPlayedExists = st.store.recentlyPlayedExists ∧
      st'.store.recentlyPlayedRows = st.store.recentlyPlayedRows ∧
      st'.store.popularAlbumsExists = st.store.popularAlbumsExists ∧
      st'.store.popularAlbumsRows = st.store.popularAlbumsRows ∧
      (0 < fx.length → 0 < st'.store.madeForYouRows.length) := by
  by_cases hrow : st.store.madeForYouRows = []
  · rw [populateMadeForYou_seed now fx st hex hrow]
    refine ⟨_, rfl, rfl, rfl, ⟨[DbEffect.countRead "made_for_you_playlists"] ++
      (fx.map fun t => DbEffect.insertAttempt "made_for_you_playlists" t.id), ?_⟩,
      hex, rfl, rfl, rfl, rfl, rfl, rfl, ?_⟩
    · simp [List.append_assoc]
    · intro hn
      rw [hrow]
      obtain ⟨n, hn'⟩ : ∃ n, fx = (fx.getD 0 default) :: fx.tail := by
        cases fx with
        | nil => simp at hn
        | cons a l => exact ⟨0, rfl⟩
      rw [hn', List.foldl_cons]
      have h0 : insertNoConflict MadeForYouRow.id []
          (madeForYouRowOfFrontend now (fx.getD 0 default)) =
          [madeForYouRowOfFrontend now (fx.getD 0 default)] := by
        simp [insertNoConflict]
      rw [h0]
      calc (0 : Nat) < 1 := one_pos
        _ = ([madeForYouRowOfFrontend now (fx.getD 0 default)].length) := rfl
        _ ≤ _ := length_le_foldl_insertNoConflict MadeForYouRow.id
            (fun t => madeForYouRowOfFrontend now t) fx.tail _
  · have hpos : 0 < st.store.madeForYouRows.length := List.length_pos.mpr hrow
    rw [populateMadeForYou_skip noFail now fx st hex rfl hpos]
    exact ⟨_, rfl, rfl, rfl, ⟨_, rfl⟩, hex, rfl, rfl, rfl, rfl, rfl, rfl,
      fun _ => hpos⟩

/-- Existential form of the popular-albums populate step. -/
theorem populatePopularAlbums_run (now : Int) (fx : List FrontendTrack)
    (st : AgentState) (hex : st.store.popularAlbumsExists = true) :
    ∃ st', populatePopularAlbumsData noFail now fx st = .ok st' ∧
      st'.query = st.query ∧ st'.routes = st.routes ∧
      (∃ d, st'.trace = st.trace ++ d) ∧
      st'.store.popularAlbumsExists = true ∧
      st'.store.tracksExists = st.store.tracksExists ∧
      st'.store.tracksRows = st.store.tracksRows ∧
      st'.store.recentlyPlayedExists = st.store.recentlyPlayedExists ∧
      st'.store.recentlyPlayedRows = st.store.recentlyPlayedRows ∧
      st'.store.madeForYouExists = st.store.madeForYouExists ∧
      st'.store.madeForYouRows = st.store.madeForYouRows ∧
      (0 < fx.length → 0 < st'.store.popularAlbumsRows.length) := by
  by_cases hrow : st.store.popularAlbumsRows = []
  · rw [populatePopularAlbums_seed now fx st hex hrow]
    refine ⟨_, rfl, rfl, rfl, ⟨[DbEffect.countRead "popular_albums"] ++
      (fx.map fun t => DbEffect.insertAttempt "popular_albums" t.id), ?_⟩,
      hex, rfl, rfl, rfl, rfl, rfl, rfl, ?_⟩
    · simp [List.append_assoc]
    · intro hn
      rw [hrow]
      obtain ⟨n, hn'⟩ : ∃ n, fx = (fx.getD 0 default) :: fx.tail := by
        cases fx with
        | nil => simp at hn
        | cons a l => exact ⟨0, rfl⟩
      rw [hn', List.foldl_cons]
      have h0 : insertNoConflict PopularAlbumRow.id []
          (albumRowOfFrontend now (fx.getD 0 default)) =
          [albumRowOfFrontend now (fx.getD 0 default)] := by
        simp [insertNoConflict]
      rw [h0]
      calc (0 : Nat) < 1 := one_pos
        _ = ([albumRowOfFrontend now (fx.getD 0 default)].length) := rfl
        _ ≤ _ := length_le_foldl_insertNoConflict PopularAlbumRow.id
            (fun t => albumRowOfFrontend now t) fx.tail _
  · have hpos : 0 < st.store.popularAlbumsRows.length := List.length_pos.mpr hrow
    rw [populatePopularAlbums_skip noFail now fx st hex rfl hpos]
    exact ⟨_, rfl, rfl, rfl, ⟨_, rfl⟩, hex, rfl, rfl, rfl, rfl, rfl, rfl,
      fun _ => hpos⟩

/-- Existential form of one full `handleMadeForYou` run under no injected
failures. -/
theorem handleMadeForYou_run (now : Int) (fx : List FrontendTrack)
    (st : AgentState) :
    ∃ st', handleMadeForYou noFail now fx st = .ok st' ∧
      st'.query = st.query ∧ st'.routes = st.routes ∧
      (∃ d, st'.trace = st.trace ++ d) ∧
      st'.store.madeForYouExists = true ∧
      st'.store.tracksExists = st.store.tracksExists ∧
      st'.store.tracksRows = st.store.tracksRows ∧
      st'.store.recentlyPlayedExists = st.store.recentlyPlayedExists ∧
      st'.store.recentlyPlayedRows = st.store.recentlyPlayedRows ∧
      st'.store.popularAlbumsExists = st.store.popularAlbumsExists ∧
      st'.store.popularAlbumsRows = st.store.popularAlbumsRows ∧
      (0 < fx.length → 0 < st'.store.madeForYouRows.length) := by
  obtain ⟨st1, he1, hq1, hr1, hs1, d1, ht1, hm1⟩ :=
    ensureTableExists_run "made_for_you_playlists" (by decide) st
  have hex1 : st1.store.madeForYouExists = true := by
    rw [hs1, setExists_mfy]
  obtain ⟨st2, he2, hq2, hr2, ⟨d2, ht2⟩, hex2, hte2, htr2, hre2, hrr2, hpe2,
    hpr2, hpos2⟩ := populateMadeForYou_run now fx st1 hex1
  unfold handleMadeForYou
  rw [he1]
  simp only [Res.andThen]
  rw [he2]
  simp only [Res.andThen]
  rw [verifyMadeForYou_ok st2 hex2]
  refine ⟨_, rfl, hq2.trans hq1, hr2.trans hr1,
    ⟨d1 ++ (d2 ++ [DbEffect.selectRead "made_for_you_playlists"]), ?_⟩,
    hex2, ?_, ?_, ?_, ?_, ?_, ?_, hpos2⟩
  · simp [AgentState.emit, ht2, ht1, List.append_assoc]
  · exact hte2.trans (by rw [hs1, setExists_mfy])
  · exact htr2.trans (by rw [hs1, setExists_mfy])
  · exact hre2.trans (by rw [hs1, setExists_mfy])
  · exact hrr2.trans (by rw [hs1, setExists_mfy])
  · exact hpe2.trans (by rw [hs1, setExists_mfy])
  · exact hpr2.trans (by rw [hs1, setExists_mfy])

/-- Existential form of one full `handlePopularAlbums` run under no
injected failures. -/
theorem handlePopularAlbums_run (now : Int) (fx : List FrontendTrack)
    (st : AgentState) :
    ∃ st', handlePopularAlbums noFail now fx st = .ok st' ∧
      st'.query = st.query ∧ st'.routes = st.routes ∧
      (∃ d, st'.trace = st.trace ++ d) ∧
      st'.store.popularAlbumsExists = true ∧
      st'.store.tracksExists = st.store.tracksExists ∧
      st'.store.tracksRows = st.store.tracksRows ∧
      st'.store.recentlyPlayedExists = st.store.recentlyPlayedExists ∧
      st'.store.recentlyPlayedRows = st.store.recentlyPlayedRows ∧
      st'.store.madeForYouExists = st.store.madeForYouExists ∧
      st'.store.madeForYouRows = st.store.madeForYouRows ∧
      (0 < fx.length → 0 < st'.store.popularAlbumsRows.length) := by
  obtain ⟨st1, he1, hq1, hr1, hs1, d1, ht1, hm1⟩ :=
    ensureTableExists_run "popular_albums" (by decide) st
  have hex1 : st1.store.popularAlbumsExists = true := by
    rw [hs1, setExists_pa]
  obtain ⟨st2, he2, hq2, hr2, ⟨d2, ht2⟩, hex2, hte2, htr2, hre2, hrr2, hpe2,
    hpr2, hpos2⟩ := populatePopularAlbums_run now fx st1 hex1
  unfold handlePopularAlbums
  rw [he1]
  simp only [Res.andThen]
  rw [he2]
  simp only [Res.andThen]
  rw [verifyPopularAlbums_ok st2 hex2]
  refine ⟨_, rfl, hq2.trans hq1, hr2.trans hr1,
    ⟨d1 ++ (d2 ++ [DbEffect.selectRead "popular_albums"]), ?_⟩,
    hex2, ?_, ?_, ?_, ?_, ?_, ?_, hpos2⟩
  · simp [AgentState.emit, ht2, ht1, List.append_assoc]
  · exact hte2.trans (by rw [hs1, setExists_pa])
  · exact htr2.trans (by rw [hs1, setExists_pa])
  · exact hre2.trans (by rw [hs1, setExists_pa])
  · exact hrr2.trans (by rw [hs1, setExists_pa])
  · exact hpe2.trans (by rw [hs1, setExists_pa])
  · exact hpr2.trans (by rw [hs1, setExists_pa])

/-! Second-run identity: once a kind's schema exists and its gating table
is non-empty, a handler only reads and leaves the whole store unchanged. -/

theorem handleRecentlyPlayed_already (now : Int) (fx : List FrontendTrack)
    (st : AgentState)
    (h1 : st.store.tracksExists = true)
    (h2 : st.store.recentlyPlayedExists = true)
    (h3 : 0 < st.store.recentlyPlayedRows.length) :
    handleRecentlyPlayed noFail now fx st =
      .ok { st with trace := st.trace ++
        [.countRead "tracks", .countRead "recently_played",
         .countRead "recently_played", .selectRead "recently_played"] } := by
  have hf1 : st.store.existsFlag "tracks" = true := by
    simp [Store.existsFlag, h1]
  have hf2 : st.store.existsFlag "recently_played" = true := by
    simp [Store.existsFlag, h2]
  unfold handleRecentlyPlayed
  rw [ensureTableExists_exists "tracks" (by decide) st hf1]
  simp only [Res.andThen]
  rw [ensureTableExists_exists "recently_played" (by decide)
    (st.emit (.countRead "tracks")) hf2]
  simp only [Res.andThen]
  rw [populateRecentlyPlayed_skip noFail now fx
    ((st.emit (.countRead "tracks")).emit (.countRead "recently_played")) h2 rfl h3]
  simp only [Res.andThen]
  rw [verifyRecentlyPlayed_ok
    (((st.emit (.countRead "tracks")).emit (.countRead "recently_played")).emit
      (.countRead "recently_played")) h2 h1]
  simp [AgentState.emit, List.append_assoc]

theorem handleMadeForYou_already (now : Int) (fx : List FrontendTrack)
    (st : AgentState)
    (h1 : st.store.madeForYouExists = true)
    (h2 : 0 < st.store.madeForYouRows.length) :
    handleMadeForYou noFail now fx st =
      .ok { st with trace := st.trace ++
        [.countRead "made_for_you_playlists", .countRead "made_for_you_playlists",
         .selectRead "made_for_you_playlists"] } := by
  have hf1 : st.store.existsFlag "made_for_you_playlists" = true := by
    simp [Store.existsFlag, h1]
  unfold handleMadeForYou
  rw [ensureTableExists_exists "made_for_you_playlists" (by decide) st hf1]
  simp only [Res.andThen]
  rw [populateMadeForYou_skip noFail now fx
    (st.emit (.countRead "made_for_you_playlists")) h1 rfl h2]
  simp only [Res.andThen]
  rw [verifyMadeForYou_ok
    ((st.emit (.countRead "made_for_you_playlists")).emit
      (.countRead "made_for_you_playlists")) h1]
  simp [AgentState.emit, List.append_assoc]

theorem handlePopularAlbums_already (now : Int) (fx : List FrontendTrack)
    (st : AgentState)
    (h1 : st.store.popularAlbumsExists = true)
    (h2 : 0 < st.store.popularAlbumsRows.length) :
    handlePopularAlbums noFail now fx st =
      .ok { st with trace := st.trace ++
        [.countRead "popular_albums", .countRead "popular_albums",
         .selectRead "popular_albums"] } := by
  have hf1 : st.store.existsFlag "popular_albums" = true := by
    simp [Store.existsFlag, h1]
  unfold handlePopularAlbums
  rw [ensureTableExists_exists "popular_albums" (by decide) st hf1]
  simp only [Res.andThen]
  rw [populatePopularAlbums_skip noFail now fx
    (st.emit (.countRead "popular_albums")) h1 rfl h2]
  simp only [Res.andThen]
  rw [verifyPopularAlbums_ok
    ((st.emit (.countRead "popular_albums")).emit
      (.countRead "popular_albums")) h1]
  simp [AgentState.emit, List.append_assoc]

/-- Claim C1: provisioning is idempotent for all four entity kinds.  The
Track and PlayHistory kinds are provisioned together by
`handleRecentlyPlayed`, the playlist kind by `handleMadeForYou` and the
album kind by `handlePopularAlbums`.  For each handler, a first run (from
any starting state, at any clock value, with a non-empty fixture list)
succeeds; running the same handler again leaves the entire store — hence
every table's row count — exactly as after the first run; and the second
run's populate step performs only the gating count read (observing a
non-zero count thanks to the first run) and inserts no further seed rows. -/
theorem claim_C1_provision_idempotent (now now2 : Int)
    (fxR fxM fxP : List FrontendTrack) (stR stM stP : AgentState)
    (hR : 0 < fxR.length) (hM : 0 < fxM.length) (hP : 0 < fxP.length) :
    (∃ st1, handleRecentlyPlayed noFail now fxR stR = .ok st1 ∧
      0 < st1.store.recentlyPlayedRows.length ∧
      (∃ st2, handleRecentlyPlayed noFail now2 fxR st1 = .ok st2 ∧
        st2.store = st1.store) ∧
      populateRecentlyPlayedData noFail now2 fxR st1 =
        .ok (st1.emit (.countRead "recently_played"))) ∧
    (∃ st1, handleMadeForYou noFail now fxM stM = .ok st1 ∧
      0 < st1.store.madeForYouRows.length ∧
      (∃ st2, handleMadeForYou noFail now2 fxM st1 = .ok st2 ∧
        st2.store = st1.store) ∧
      populateMadeForYouData noFail now2 fxM st1 =
        .ok (st1.emit (.countRead "made_for_you_playlists"))) ∧
    (∃ st1, handlePopularAlbums noFail now fxP stP = .ok st1 ∧
      0 < st1.store.popularAlbumsRows.length ∧
      (∃ st2, handlePopularAlbums noFail now2 fxP st1 = .ok st2 ∧
        st2.store = st1.store) ∧
      populatePopularAlbumsData noFail now2 fxP st1 =
        .ok (st1.emit (.countRead "popular_albums"))) := by
  refine ⟨?_, ?_, ?_⟩
  · obtain ⟨st1, he1, _, _, _, htr, hex, _, _, _, _, hpos, _, _⟩ :=
      handleRecentlyPlayed_run now fxR stR
    refine ⟨st1, he1, hpos hR, ⟨_,
      handleRecentlyPlayed_already now2 fxR st1 htr hex (hpos hR), rfl⟩,
      populateRecentlyPlayed_skip noFail now2 fxR st1 hex rfl (hpos hR)⟩
  · obtain ⟨st1, he1, _, _, _, hex, _, _, _, _, _, _, hpos⟩ :=
      handleMadeForYou_run now fxM stM
    refine ⟨st1, he1, hpos hM, ⟨_,
      handleMadeForYou_already now2 fxM st1 hex (hpos hM), rfl⟩,
      populateMadeForYou_skip noFail now2 fxM st1 hex rfl (hpos hM)⟩
  · obtain ⟨st1, he1, _, _, _, hex, _, _, _, _, _, _, hpos⟩ :=
      handlePopularAlbums_run now fxP stP
    refine ⟨st1, he1, hpos hP, ⟨_,
      handlePopularAlbums_already now2 fxP st1 hex (hpos hP), rfl⟩,
      populatePopularAlbums_skip noFail now2 fxP st1 hex rfl (hpos hP)⟩

/-- Witness for C1: the hypotheses hold at the spec-modelled catalog, and
the recently-played component of the conclusion is realized at a concrete
empty store with two distinct clock values. -/
theorem claim_C1_provision_idempotent_witness :
    (0 < specCatalog.recentlyPlayedData.length ∧
      0 < specCatalog.madeForYouData.length ∧
      0 < specCatalog.popularAlbumsData.length) ∧
    (∃ st1, handleRecentlyPlayed noFail 0 specCatalog.recentlyPlayedData
        (initState emptyTablesStore testQuery1) = .ok st1 ∧
      0 < st1.store.recentlyPlayedRows.length ∧
      (∃ st2, handleRecentlyPlayed noFail 3600000 specCatalog.recentlyPlayedData
          st1 = .ok st2 ∧ st2.store = st1.store) ∧
      populateRecentlyPlayedData noFail 3600000 specCatalog.recentlyPlayedData
          st1 = .ok (st1.emit (.countRead "recently_played"))) :=
  ⟨⟨by decide, by decide, by decide⟩,
   (claim_C1_provision_idempotent 0 3600000
      specCatalog.recentlyPlayedData specCatalog.madeForYouData
      specCatalog.popularAlbumsData
      (initState emptyTablesStore testQuery1)
      (initState emptyTablesStore testQuery2)
      (initState emptyTablesStore testQuery2)
      (by decide) (by decide) (by decide)).1⟩

/-! Provisioning never touches the filesystem: an invariant of every step
of `executeOperations`, used for the fail-fast claim. -/

/-- Whether an effect is a route-file write. -/
def DbEffect.isRouteWrite : DbEffect → Bool
  | .writeRouteFile _ => true
  | _ => false

/-- The result extends `st0` by SQL statements only: query and routes are
untouched and the trace grows by write-free effects. -/
def DbExtends (st0 : AgentState) (r : Res) : Prop :=
  r.state.query = st0.query ∧
  r.state.routes = st0.routes ∧
  ∃ d, r.state.trace = st0.trace ++ d ∧ ∀ p, DbEffect.writeRouteFile p ∉ d

/-- A step all of whose outcomes are db-only extensions of its input. -/
def dbOnlyStep (f : AgentState → Res) : Prop := ∀ st, DbExtends st (f st)

theorem DbExtends_ok (st : AgentState) : DbExtends st (.ok st) :=
  ⟨rfl, rfl, [], by simp [Res.state], by simp⟩

theorem DbExtends_comp {st0 st1 : AgentState} {r : Res}
    (h1 : DbExtends st0 (.ok st1)) (h2 : DbExtends st1 r) : DbExtends st0 r := by
  obtain ⟨hq1, hr1, d1, ht1, hw1⟩ := h1
  obtain ⟨hq2, hr2, d2, ht2, hw2⟩ := h2
  refine ⟨hq2.trans hq1, hr2.trans hr1, d1 ++ d2, ?_, ?_⟩
  · rw [ht2]
    show st1.trace ++ d2 = st0.trace ++ (d1 ++ d2)
    rw [show st1.trace = st0.trace ++ d1 from ht1, List.append_assoc]
  · intro p hp
    rcases List.mem_append.mp hp with h | h
    · exact hw1 p h
    · exact hw2 p h

theorem DbExtends.andThen {st0 : AgentState} {r : Res} {g : AgentState → Res}
    (h : DbExtends st0 r) (hg : dbOnlyStep g) : DbExtends st0 (r.andThen g) := by
  cases r with
  | ok st1 =>
    show DbExtends st0 (g st1)
    exact DbExtends_comp h (hg st1)
  | err e st1 => exact h

theorem dbOnly_insertLoop {ι : Type} (step : ι → AgentState → Res)
    (hstep : ∀ x, dbOnlyStep (step x)) :
    ∀ l : List ι, dbOnlyStep (fun st => insertLoop step l st) := by
  intro l
  induction l with
  | nil => intro st; exact DbExtends_ok st
  | cons x xs ih =>
    intro st
    show DbExtends st (insertLoop step (x :: xs) st)
    rw [insertLoop_cons]
    exact (hstep x st).andThen ih

theorem dbOnly_dbInsertTrack (fs : FailureSpec) (r : TrackRow) :
    dbOnlyStep (dbInsertTrack fs r) := by
  intro st
  unfold dbInsertTrack
  split
  · exact ⟨rfl, rfl, [.insertAttempt "tracks" r.id], rfl, by simp⟩
  · exact ⟨rfl, rfl, [.insertAttempt "tracks" r.id], rfl, by simp⟩

theorem dbOnly_dbInsertRecent (fs : FailureSpec) (r : RecentlyPlayedRow) :
    dbOnlyStep (dbInsertRecent fs r) := by
  intro st
  unfold dbInsertRecent
  split
  · exact ⟨rfl, rfl, [.insertAttempt "recently_played" r.id], rfl, by simp⟩
  · exact ⟨rfl, rfl, [.insertAttempt "recently_played" r.id], rfl, by simp⟩

theorem dbOnly_dbInsertMadeForYou (fs : FailureSpec) (r : MadeForYouRow) :
    dbOnlyStep (dbInsertMadeForYou fs r) := by
  intro st
  unfold dbInsertMadeForYou
  split
  · exact ⟨rfl, rfl, [.insertAttempt "made_for_you_playlists" r.id], rfl, by simp⟩
  · exact ⟨rfl, rfl, [.insertAttempt "made_for_you_playlists" r.id], rfl, by simp⟩

theorem dbOnly_dbInsertAlbum (fs : FailureSpec) (r : PopularAlbumRow) :
    dbOnlyStep (dbInsertAlbum fs r) := by
  intro st
  unfold dbInsertAlbum
  split
  · exact ⟨rfl, rfl, [.insertAttempt "popular_albums" r.id], rfl, by simp⟩
  · exact ⟨rfl, rfl, [.insertAttempt "popular_albums" r.id], rfl, by simp⟩

/-- Case analysis of a count read. -/
theorem dbCount_cases (fs : FailureSpec) (t : String) (st : AgentState) :
    dbCount fs t st = .error (.readFailure t, st.emit (.countRead t)) ∨
    dbCount fs t st = .ok (st.store.rowCount t, st.emit (.countRead t)) := by
  unfold dbCount
  by_cases h : (fs.countFails t || !(st.store.existsFlag t)) = true
  · left; simp [h]
  · right; simp [h]

theorem dbOnly_ensureTableExists (fs : FailureSpec) (t : String) :
    dbOnlyStep (ensureTableExists fs t) := by
  intro st
  unfold ensureTableExists
  by_cases hk : isKnownTable t = true
  · rw [if_pos hk]
    rcases dbCount_cases fs t st with h | h
    · rw [h]
      show DbExtends st (createTableIfNotExists fs t (st.emit (.countRead t)))
      unfold createTableIfNotExists
      rw [if_pos hk]
      split
      · exact ⟨rfl, rfl, [.countRead t, .createTable t],
          by simp [AgentState.emit, Res.state], by simp⟩
      · exact ⟨rfl, rfl, [.countRead t, .createTable t],
          by simp [AgentState.emit, AgentState.withStore, Res.state], by simp⟩
    · rw [h]
      show DbExtends st (.ok (st.emit (.countRead t)))
      exact ⟨rfl, rfl, [.countRead t], by simp [AgentState.emit, Res.state], by simp⟩
  · rw [if_neg (by simpa using hk)]
    exact DbExtends_ok st

theorem dbOnly_populateRecentlyPlayed (fs : FailureSpec) (now : Int)
    (fx : List FrontendTrack) :
    dbOnlyStep (populateRecentlyPlayedData fs now fx) := by
  intro st
  unfold populateRecentlyPlayedData
  have hcnt : DbExtends st (.ok (st.emit (.countRead "recently_played"))) :=
    ⟨rfl, rfl, [.countRead "recently_played"], by simp [AgentState.emit, Res.state], by simp⟩
  rcases dbCount_cases fs "recently_played" st with h | h
  · rw [h]
    show DbExtends st (Res.err (.readFailure "recently_played")
      (st.emit (.countRead "recently_played")))
    exact ⟨rfl, rfl, [.countRead "recently_played"],
      by simp [AgentState.emit, Res.state], by simp⟩
  · rw [h]
    show DbExtends st (if st.store.rowCount "recently_played" > 0
      then Res.ok (st.emit (.countRead "recently_played"))
      else (insertLoop (fun t => dbInsertTrack fs (trackRowOfFrontend now t)) fx
          (st.emit (.countRead "recently_played"))).andThen
        (insertLoop (fun i => dbInsertRecent fs (historyRowAt now fx i))
          (List.range fx.length)))
    split
    · exact hcnt
    · exact DbExtends_comp hcnt
        ((dbOnly_insertLoop _ (fun t => dbOnly_dbInsertTrack fs (trackRowOfFrontend now t)) fx
          (st.emit (.countRead "recently_played"))).andThen
        (dbOnly_insertLoop _ (fun i => dbOnly_dbInsertRecent fs (historyRowAt now fx i))
          (List.range fx.length)))

theorem dbOnly_populateMadeForYou (fs : FailureSpec) (now : Int)
    (fx : List FrontendTrack) :
    dbOnlyStep (populateMadeForYouData fs now fx) := by
  intro st
  unfold populateMadeForYouData
  have hcnt : DbExtends st (.ok (st.emit (.countRead "made_for_you_playlists"))) :=
    ⟨rfl, rfl, [.countRead "made_for_you_playlists"],
      by simp [AgentState.emit, Res.state], by simp⟩
  rcases dbCount_cases fs "made_for_you_playlists" st with h | h
  · rw [h]
    show DbExtends st (Res.err (.readFailure "made_for_you_playlists")
      (st.emit (.countRead "made_for_you_playlists")))
    exact ⟨rfl, rfl, [.countRead "made_for_you_playlists"],
      by simp [AgentState.emit, Res.state], by simp⟩
  · rw [h]
    show DbExtends st (if st.store.rowCount "made_for_you_playlists" > 0
      then Res.ok (st.emit (.countRead "made_for_you_playlists"))
      else insertLoop (fun t => dbInsertMadeForYou fs (madeForYouRowOfFrontend now t)) fx
        (st.emit (.countRead "made_for_you_playlists")))
    split
    · exact hcnt
    · exact DbExtends_comp hcnt
        (dbOnly_insertLoop _
          (fun t => dbOnly_dbInsertMadeForYou fs (madeForYouRowOfFrontend now t)) fx
          (st.emit (.countRead "made_for_you_playlists")))

theorem dbOnly_populatePopularAlbums (fs : FailureSpec) (now : Int)
    (fx : List FrontendTrack) :
    dbOnlyStep (populatePopularAlbumsData fs now fx) := by
  intro st
  unfold populatePopularAlbumsData
  have hcnt : DbExtends st (.ok (st.emit (.countRead "popular_albums"))) :=
    ⟨rfl, rfl, [.countRead "popular_albums"],
      by simp [AgentState.emit, Res.state], by simp⟩
  rcases dbCount_cases fs "popular_albums" st with h | h
  · rw [h]
    show DbExtends st (Res.err (.readFailure "popular_albums")
      (st.emit (.countRead "popular_albums")))
    exact ⟨rfl, rfl, [.countRead "popular_albums"],
      by simp [AgentState.emit, Res.state], by simp⟩
  · rw [h]
    show DbExtends st (if st.store.rowCount "popular_albums" > 0
      then Res.ok (st.emit (.countRead "popular_albums"))
      else insertLoop (fun t => dbInsertAlbum fs (albumRowOfFrontend now t)) fx
        (st.emit (.countRead "popular_albums")))
    split
    · exact hcnt
    · exact DbExtends_comp hcnt
        (dbOnly_insertLoop _
          (fun t => dbOnly_dbInsertAlbum fs (albumRowOfFrontend now t)) fx
          (st.emit (.countRead "popular_albums")))

theorem dbOnly_verifyRecentlyPlayed (fs : FailureSpec) :
    dbOnlyStep (verifyRecentlyPlayed fs) := by
  intro st
  unfold verifyRecentlyPlayed
  split
  · exact ⟨rfl, rfl, [.selectRead "recently_played"], rfl, by simp⟩
  · exact ⟨rfl, rfl, [.selectRead "recently_played"], rfl, by simp⟩

theorem dbOnly_verifyMadeForYou (fs : FailureSpec) :
    dbOnlyStep (verifyMadeForYou fs) := by
  intro st
  unfold verifyMadeForYou
  split
  · exact ⟨rfl, rfl, [.selectRead "made_for_you_playlists"], rfl, by simp⟩
  · exact ⟨rfl, rfl, [.selectRead "made_for_you_playlists"], rfl, by simp⟩

theorem dbOnly_verifyPopularAlbums (fs : FailureSpec) :
    dbOnlyStep (verifyPopularAlbums fs) := by
  intro st
  unfold verifyPopularAlbums
  split
  · exact ⟨rfl, rfl, [.selectRead "popular_albums"], rfl, by simp⟩
  · exact ⟨rfl, rfl, [.selectRead "popular_albums"], rfl, by simp⟩

theorem dbOnly_handleRecentlyPlayed (fs : FailureSpec) (now : Int)
    (fx : List FrontendTrack) :
    dbOnlyStep (handleRecentlyPlayed fs now fx) := by
  intro st
  unfold handleRecentlyPlayed
  exact (dbOnly_ensureTableExists fs "tracks" st).andThen fun st1 =>
    (dbOnly_ensureTableExists fs "recently_played" st1).andThen fun st2 =>
    (dbOnly_populateRecentlyPlayed fs now fx st2).andThen fun st3 =>
    dbOnly_verifyRecentlyPlayed fs st3

theorem dbOnly_handleMadeForYou (fs : FailureSpec) (now : Int)
    (fx : List FrontendTrack) :
    dbOnlyStep (handleMadeForYou fs now fx) := by
  intro st
  unfold handleMadeForYou
  exact (dbOnly_ensureTableExists fs "made_for_you_playlists" st).andThen fun st1 =>
    (dbOnly_populateMadeForYou fs now fx st1).andThen fun st2 =>
    dbOnly_verifyMadeForYou fs st2

theorem dbOnly_handlePopularAlbums (fs : FailureSpec) (now : Int)
    (fx : List FrontendTrack) :
    dbOnlyStep (handlePopularAlbums fs now fx) := by
  intro st
  unfold handlePopularAlbums
  exact (dbOnly_ensureTableExists fs "popular_albums" st).andThen fun st1 =>
    (dbOnly_populatePopularAlbums fs now fx st1).andThen fun st2 =>
    dbOnly_verifyPopularAlbums fs st2

theorem DbExtends_branch (st : AgentState) (b : Bool) (f : AgentState → Res)
    (hf : dbOnlyStep f) : DbExtends st (if b then f st else .ok st) := by
  cases b with
  | true => exact hf st
  | false => exact DbExtends_ok st

theorem dbOnly_executeOperations (fs : FailureSpec) (now : Int)
    (fx : FixtureData) :
    dbOnlyStep (executeOperations fs now fx) := by
  intro st
  unfold executeOperations
  exact (DbExtends_branch st _ _ (dbOnly_handleRecentlyPlayed fs now
      fx.recentlyPlayedData)).andThen fun st1 =>
    (DbExtends_branch st1 _ _ (dbOnly_handleMadeForYou fs now
      fx.madeForYouData)).andThen fun st2 =>
    DbExtends_branch st2 _ _ (dbOnly_handlePopularAlbums fs now fx.popularAlbumsData)

/-- Claim C2: fail-fast.  If the provisioning phase of a run throws any
fatal error (the classifier having returned at all, successfully parsed or
not), then the whole run ends with exactly that error and the state at the
moment of the throw: the artifact-generation phase is never entered, so no
route file is written in the run (`routes = []` and the trace holds no
filesystem write), while every insert committed before the throw is kept
in the error state's store — nothing is rolled back. -/
theorem claim_C2_failfast_no_artifacts (fx : FixtureData) (now : Int)
    (c : ClassifierOutcome) (fs : FailureSpec) (store : Store) (query : String)
    (e : AgentError) (st2 : AgentState)
    (hc : c ≠ .networkError)
    (h2 : executeOperations fs now fx (initState store query) = .err e st2) :
    processQuery fx now c fs store query = .err e st2 ∧
    st2.routes = [] ∧
    st2.trace.all (fun ef => !ef.isRouteWrite) = true := by
  have ha : analyzeQuery c (initState store query) = .ok (initState store query) := by
    cases c with
    | parsed a => rfl
    | unparseable => rfl
    | networkError => exact absurd rfl hc
  have hdb := dbOnly_executeOperations fs now fx (initState store query)
  rw [h2] at hdb
  obtain ⟨hq, hr, d, ht, hnw⟩ := hdb
  refine ⟨?_, hr, ?_⟩
  · unfold processQuery
    rw [ha]
    simp only [Res.andThen]
    rw [h2]
  · rw [List.all_eq_true]
    intro ef hef
    have hef' : ef ∈ d := by
      have ht' : st2.trace = d := by simpa [initState] using ht
      rw [ht'] at hef
      exact hef
    cases ef with
    | writeRouteFile p => exact absurd hef' (hnw p)
    | countRead t => rfl
    | createTable t => rfl
    | insertAttempt t i => rfl
    | selectRead t => rfl

/-- Failure model that makes every insert into the history table throw. -/
def c2FailSpec : FailureSpec :=
  ⟨fun _ => false, fun _ => false, fun t => t = "recently_played",
    fun _ => false, fun _ => false⟩

/-- State at which the failing run of the witness throws. -/
def c2FailState : AgentState :=
  (executeOperations c2FailSpec 0 specCatalog
    (initState emptyTablesStore testQuery1)).state

/-- Witness for C2: with inserts into `recently_played` failing, the run on
the first self-test query ends in exactly that insert failure, writes no
route file — and the error state still holds the four track rows committed
before the throw (no rollback). -/
theorem claim_C2_failfast_no_artifacts_witness :
    executeOperations c2FailSpec 0 specCatalog
        (initState emptyTablesStore testQuery1) =
      .err (.insertFailure "recently_played") c2FailState ∧
    processQuery specCatalog 0 .unparseable c2FailSpec emptyTablesStore
        testQuery1 = .err (.insertFailure "recently_played") c2FailState ∧
    c2FailState.routes = [] ∧
    c2FailState.trace.all (fun ef => !ef.isRouteWrite) = true ∧
    c2FailState.store.tracksRows.length = 4 := by
  have h2 : executeOperations c2FailSpec 0 specCatalog
      (initState emptyTablesStore testQuery1) =
      .err (.insertFailure "recently_played") c2FailState := by decide
  obtain ⟨ha, hb, hd⟩ := claim_C2_failfast_no_artifacts specCatalog 0
    .unparseable c2FailSpec emptyTablesStore testQuery1
    (.insertFailure "recently_played") c2FailState (by decide) h2
  exact ⟨h2, ha, hb, hd, by decide⟩

/-! Runs under no injected failures always succeed; used for the
keyword-derivation claim. -/

theorem executeOperations_noFail_run (now : Int) (fx : FixtureData)
    (st : AgentState)
    (hq : jsIncludes (jsToLowerCase st.query) "recently played" = true) :
    ∃ st', executeOperations noFail now fx st = .ok st' ∧
      DbEffect.countRead "tracks" ∈ st'.trace ∧
      DbEffect.countRead "recently_played" ∈ st'.trace ∧
      st'.store.tracksExists = true ∧
      st'.store.recentlyPlayedExists = true ∧
      st'.query = st.query := by
  obtain ⟨st1, he1, hq1, hr1, ⟨d1, ht1⟩, htr1, hex1, _, _, _, _, _, hm1, hm2⟩ :=
    handleRecentlyPlayed_run now fx.recentlyPlayedData st
  have step2 : ∃ st2, (if jsIncludes (jsToLowerCase st.query) "made for you"
      then handleMadeForYou noFail now fx.madeForYouData st1 else .ok st1) =
        .ok st2 ∧
      st2.store.tracksExists = true ∧ st2.store.recentlyPlayedExists = true ∧
      (∃ d, st2.trace = st1.trace ++ d) ∧ st2.query = st1.query := by
    by_cases h : jsIncludes (jsToLowerCase st.query) "made for you" = true
    · rw [if_pos h]
      obtain ⟨st2, he2, hq2, _, ⟨d2, ht2⟩, _, hte2, _, hre2, _, _, _, _⟩ :=
        handleMadeForYou_run now fx.madeForYouData st1
      exact ⟨st2, he2, hte2.trans htr1, hre2.trans hex1, ⟨d2, ht2⟩, hq2⟩
    · rw [if_neg h]
      exact ⟨st1, rfl, htr1, hex1, ⟨[], by simp⟩, rfl⟩
  obtain ⟨st2, he2, htr2, hex2, ⟨d2, ht2⟩, hq2⟩ := step2
  have step3 : ∃ st3, (if jsIncludes (jsToLowerCase st.query) "popular albums"
      then handlePopularAlbums noFail now fx.popularAlbumsData st2 else .ok st2) =
        .ok st3 ∧
      st3.store.tracksExists = true ∧ st3.store.recentlyPlayedExists = true ∧
      (∃ d, st3.trace = st2.trace ++ d) ∧ st3.query = st2.query := by
    by_cases h : jsIncludes (jsToLowerCase st.query) "popular albums" = true
    · rw [if_pos h]
      obtain ⟨st3, he3, hq3, _, ⟨d3, ht3⟩, _, hte3, _, hre3, _, _, _, _⟩ :=
        handlePopularAlbums_run now fx.popularAlbumsData st2
      exact ⟨st3, he3, hte3.trans htr2, hre3.trans hex2, ⟨d3, ht3⟩, hq3⟩
    · rw [if_neg h]
      exact ⟨st2, rfl, htr2, hex2, ⟨[], by simp⟩, rfl⟩
  obtain ⟨st3, he3, htr3, hex3, ⟨d3, ht3⟩, hq3⟩ := step3
  refine ⟨st3, ?_, ?_, ?_, htr3, hex3, hq3.trans (hq2.trans hq1)⟩
  · show ((if jsIncludes (jsToLowerCase st.query) "recently played"
        then handleRecentlyPlayed noFail now fx.recentlyPlayedData st
        else .ok st).andThen fun s1 =>
      (if jsIncludes (jsToLowerCase st.query) "made for you"
        then handleMadeForYou noFail now fx.madeForYouData s1
        else .ok s1).andThen fun s2 =>
      (if jsIncludes (jsToLowerCase st.query) "popular albums"
        then handlePopularAlbums noFail now fx.popularAlbumsData s2
        else .ok s2)) = Res.ok st3
    simp only [hq, eq_self_iff_true, if_true]
    rw [he1]
    simp only [Res.andThen]
    rw [he2]
    simp only [Res.andThen]
    rw [he3]
  · rw [ht3, ht2, ht1]
    rw [ht1] at hm1
    simp only [List.mem_append] at hm1 ⊢
    tauto
  · rw [ht3, ht2, ht1]
    rw [ht1] at hm2
    simp only [List.mem_append] at hm2 ⊢
    tauto

theorem createAPIRoutes_noFail_run (st : AgentState) :
    ∃ st', createAPIRoutes noFail st = .ok st' ∧ st'.store = st.store ∧
      ∃ d, st'.trace = st.trace ++ d := by
  show ∃ st', ((if jsIncludes (jsToLowerCase st.query) "recently played"
      then writeRouteFile noFail "src/app/api/recently-played/route.ts" st
      else .ok st).andThen fun s1 =>
    (if jsIncludes (jsToLowerCase st.query) "made for you"
      then writeRouteFile noFail "src/app/api/made-for-you/route.ts" s1
      else .ok s1).andThen fun s2 =>
    (if jsIncludes (jsToLowerCase st.query) "popular albums"
      then writeRouteFile noFail "src/app/api/popular-albums/route.ts" s2
      else .ok s2)) = .ok st' ∧ st'.store = st.store ∧
      ∃ d, st'.trace = st.trace ++ d
  have hw : ∀ (p : String) (s : AgentState), writeRouteFile noFail p s =
      .ok { s with trace := s.trace ++ [.writeRouteFile p],
                   routes := s.routes ++ [p] } := by
    intro p s
    simp [writeRouteFile, noFail, AgentState.emit]
  by_cases h1 : jsIncludes (jsToLowerCase st.query) "recently played" = true <;>
  by_cases h2 : jsIncludes (jsToLowerCase st.query) "made for you" = true <;>
  by_cases h3 : jsIncludes (jsToLowerCase st.query) "popular albums" = true <;>
    simp only [h1, h2, h3, eq_self_iff_true, if_true, if_false,
      Bool.false_eq_true, hw, Res.andThen, List.append_assoc] <;>
    first
    | exact ⟨_, rfl, rfl, _, rfl⟩
    | exact ⟨_, rfl, rfl, [], (List.append_nil _).symm⟩

/-- Claim C3 counterexample: the claim as stated is false for a network
error of the classifier call.  On the first self-test query — which does
contain the substring "recently played" — a `generateContent` throw makes
the whole run fail at the analysis step: the result is the classifier
error with an empty effect trace, so the provisioning phase was never
entered. -/
theorem claim_C3_counterexample :
    jsIncludes (jsToLowerCase testQuery1) "recently played" = true ∧
    processQuery specCatalog 0 .networkError noFail emptyTablesStore testQuery1 =
      .err .classifierNetwork (initState emptyTablesStore testQuery1) ∧
    (processQuery specCatalog 0 .networkError noFail emptyTablesStore
      testQuery1).state.trace = [] := by
  exact ⟨by decide, rfl, rfl⟩

/-- Claim C3 (amended): a malformed or unparseable structured response
never blocks provisioning — `analyzeQuery` absorbs the parse failure in
its inner catch and returns normally, and the rest of the run is literally
identical to a run whose classification parsed, whatever intent it
carried (classifier output is advisory only).  A network error of the
external call, by contrast, is thrown outside the inner try/catch and
aborts the run before provisioning (see the counterexample). -/
theorem claim_C3_degraded_classification (fx : FixtureData) (now : Int)
    (fs : FailureSpec) (store : Store) (query : String) (a : IntentAnalysis) :
    analyzeQuery .unparseable (initState store query) =
      .ok (initState store query) ∧
    processQuery fx now .unparseable fs store query =
      processQuery fx now (.parsed a) fs store query :=
  ⟨rfl, rfl⟩

/-- Claim C4 counterexample: the claim as stated fails when classification
fails with a network error.  On the first self-test query (which contains
"recently played") the run aborts before provisioning: it is not ok, and
no count read of `tracks` or `recently_played` was ever attempted, so the
provisioned entity set does not include the Track/PlayHistory pair. -/
theorem claim_C4_counterexample :
    jsIncludes (jsToLowerCase testQuery1) "recently played" = true ∧
    (processQuery specCatalog 0 .networkError noFail emptyTablesStore
      testQuery1).isOk = false ∧
    DbEffect.countRead "tracks" ∉
      (processQuery specCatalog 0 .networkError noFail emptyTablesStore
        testQuery1).state.trace ∧
    DbEffect.countRead "recently_played" ∉
      (processQuery specCatalog 0 .networkError noFail emptyTablesStore
        testQuery1).state.trace := by
  decide

/-- Claim C4 (amended): for every query containing the substring
"recently played" and every classifier outcome that is not a network
error (a parsed intent — whatever it names — or an unparseable response),
the run provisions both the Track and the PlayHistory kinds: it succeeds,
its trace holds the count reads of both tables, and both schemas exist in
the final store.  When the classifier call itself throws, the run aborts
before provisioning anything (see the counterexample). -/
theorem claim_C4_keyword_derivation (fx : FixtureData) (now : Int)
    (c : ClassifierOutcome) (store : Store) (query : String)
    (hc : c ≠ .networkError)
    (hq : "recently played".data <:+: query.data) :
    ∃ st', processQuery fx now c noFail store query = .ok st' ∧
      DbEffect.countRead "tracks" ∈ st'.trace ∧
      DbEffect.countRead "recently_played" ∈ st'.trace ∧
      st'.store.tracksExists = true ∧
      st'.store.recentlyPlayedExists = true := by
  have hq' : jsIncludes (jsToLowerCase query) "recently played" = true := by
    unfold jsIncludes jsToLowerCase
    rw [decide_eq_true_eq]
    have h1 := List.IsInfix.map Char.toLower hq
    rwa [show "recently played".data.map Char.toLower = "recently played".data
      from by decide] at h1
  have ha : analyzeQuery c (initState store query) = .ok (initState store query) := by
    cases c with
    | parsed a => rfl
    | unparseable => rfl
    | networkError => exact absurd rfl hc
  obtain ⟨st1, he1, hm1, hm2, htr1, hex1, hq1⟩ :=
    executeOperations_noFail_run now fx (initState store query) hq'
  obtain ⟨st2, he2, hs2, d2, ht2⟩ := createAPIRoutes_noFail_run st1
  refine ⟨st2, ?_, ?_, ?_, ?_, ?_⟩
  · unfold processQuery
    rw [ha]
    simp only [Res.andThen]
    rw [he1]
    simp only [Res.andThen]
    rw [he2]
    rfl
  · rw [ht2]
    exact List.mem_append.mpr (Or.inl hm1)
  · rw [ht2]
    exact List.mem_append.mpr (Or.inl hm2)
  · rw [hs2]
    exact htr1
  · rw [hs2]
    exact hex1

/-- Witness for C4: concrete instantiation on the first self-test query
with an unparseable classifier response over an empty store. -/
theorem claim_C4_keyword_derivation_witness :
    ∃ st', processQuery specCatalog 0 .unparseable noFail emptyTablesStore
        testQuery1 = .ok st' ∧
      DbEffect.countRead "tracks" ∈ st'.trace ∧
      DbEffect.countRead "recently_played" ∈ st'.trace ∧
      st'.store.tracksExists = true ∧
      st'.store.recentlyPlayedExists = true :=
  claim_C4_keyword_derivation specCatalog 0 .unparseable emptyTablesStore
    testQuery1 (by decide) (by decide)

/-- Claim C5: foreign-key ordering of play-history seeding.  When the
history table is populated from fixtures (empty gating table, schemas
present, no injected failures): every track insert statement precedes
every history insert statement in the trace; the `tracks` table already
holds its final contents when the history phase starts (it is not touched
afterwards); and every inserted history row's track reference resolves to
a row present in the `tracks` table — no dangling references. -/
theorem claim_C5_fk_ordering (now : Int) (fx : List FrontendTrack)
    (st : AgentState)
    (hex : st.store.recentlyPlayedExists = true)
    (htr : st.store.tracksExists = true)
    (hempty : st.store.recentlyPlayedRows = []) :
    ∃ st', populateRecentlyPlayedData noFail now fx st = .ok st' ∧
      st'.trace = st.trace ++ [.countRead "recently_played"] ++
        (fx.map fun t => .insertAttempt "tracks" t.id) ++
        ((List.range fx.length).map fun i =>
          .insertAttempt "recently_played" (historyRowAt now fx i).id) ∧
      st'.store.tracksRows = fx.foldl (fun rows t =>
        insertNoConflict TrackRow.id rows (trackRowOfFrontend now t))
        st.store.tracksRows ∧
      ∀ r ∈ st'.store.recentlyPlayedRows,
        r.trackId ∈ st'.store.tracksRows.map TrackRow.id := by
  rw [populateRecentlyPlayed_seed now fx st hex htr hempty]
  refine ⟨_, rfl, rfl, rfl, ?_⟩
  intro r hr
  rcases mem_of_mem_foldl_insertNoConflict RecentlyPlayedRow.id
    (fun i => historyRowAt now fx i) (List.range fx.length) [] r hr with h | h
  · cases h
  · obtain ⟨i, hi, rfl⟩ := List.mem_map.mp h
    have hi' : i < fx.length := List.mem_range.mp hi
    have hmem : fx.getD i default ∈ fx := by
      rw [List.getD_eq_getElem fx default hi']
      exact List.getElem_mem hi'
    exact key_mem_foldl_insertNoConflict TrackRow.id
      (fun t => trackRowOfFrontend now t) fx st.store.tracksRows
      (fx.getD i default) hmem

/-- Witness for C5: the seed path on the first run over the spec-modelled
catalog and an empty store. -/
theorem claim_C5_fk_ordering_witness :
    ∃ st', populateRecentlyPlayedData noFail 0 specCatalog.recentlyPlayedData
        (initState emptyTablesStore testQuery1) = .ok st' ∧
      st'.trace = (initState emptyTablesStore testQuery1).trace ++
        [.countRead "recently_played"] ++
        (specCatalog.recentlyPlayedData.map fun t => .insertAttempt "tracks" t.id) ++
        ((List.range specCatalog.recentlyPlayedData.length).map fun i =>
          .insertAttempt "recently_played"
            (historyRowAt 0 specCatalog.recentlyPlayedData i).id) ∧
      st'.store.tracksRows = specCatalog.recentlyPlayedData.foldl (fun rows t =>
        insertNoConflict TrackRow.id rows (trackRowOfFrontend 0 t))
        (initState emptyTablesStore testQuery1).store.tracksRows ∧
      ∀ r ∈ st'.store.recentlyPlayedRows,
        r.trackId ∈ st'.store.tracksRows.map TrackRow.id :=
  claim_C5_fk_ordering 0 specCatalog.recentlyPlayedData
    (initState emptyTablesStore testQuery1) (by decide) (by decide) (by decide)

/-- Claim C6: timestamp staggering of play-history seeding.  Seeding an
empty history table yields exactly one history row per fixture index, in
fixture order; the row at index `i` carries
`playedAt = now - i * 3600000` (the run's clock minus `i` hours), so
timestamps strictly decrease by exactly one hour per row index and row 0
is the most recent.  The id-freshness hypothesis `hids` states that the
generated `recent-(i+1)` ids are pairwise distinct, which holds for every
length and is checked by evaluation in the witness. -/
theorem claim_C6_timestamp_stagger (now : Int) (fx : List FrontendTrack)
    (st : AgentState)
    (hex : st.store.recentlyPlayedExists = true)
    (htr : st.store.tracksExists = true)
    (hempty : st.store.recentlyPlayedRows = [])
    (hids : ((List.range fx.length).map fun i =>
      "recent-" ++ Nat.repr (i + 1)).Nodup) :
    ∃ st', populateRecentlyPlayedData noFail now fx st = .ok st' ∧
      st'.store.recentlyPlayedRows =
        (List.range fx.length).map (historyRowAt now fx) ∧
      (∀ i, i < fx.length →
        (st'.store.recentlyPlayedRows.getD i default).playedAt =
          now - (i : Int) * 3600000) ∧
      st'.store.recentlyPlayedRows.Pairwise
        (fun a b => b.playedAt < a.playedAt) := by
  have hrows : (List.range fx.length).foldl (fun rows i =>
      insertNoConflict RecentlyPlayedRow.id rows (historyRowAt now fx i)) [] =
      (List.range fx.length).map (historyRowAt now fx) := by
    have h := foldl_insertNoConflict_of_nodup RecentlyPlayedRow.id
      (fun i => historyRowAt now fx i) (List.range fx.length) [] hids
      (fun y _ a ha => absurd ha (List.not_mem_nil a))
    simpa using h
  rw [populateRecentlyPlayed_seed now fx st hex htr hempty]
  refine ⟨_, rfl, hrows, ?_, ?_⟩
  · intro i hi
    show (((List.range fx.length).foldl (fun rows j =>
      insertNoConflict RecentlyPlayedRow.id rows (historyRowAt now fx j))
      []).getD i default).playedAt = now - (i : Int) * 3600000
    rw [hrows, List.getD_eq_getElem?_getD, List.getElem?_map,
      List.getElem?_range hi]
    rfl
  · show ((List.range fx.length).foldl (fun rows j =>
      insertNoConflict RecentlyPlayedRow.id rows (historyRowAt now fx j))
      []).Pairwise (fun a b => b.playedAt < a.playedAt)
    rw [hrows, List.pairwise_map]
    refine List.Pairwise.imp ?_ (List.pairwise_lt_range fx.length)
    intro i j hij
    show (historyRowAt now fx j).playedAt < (historyRowAt now fx i).playedAt
    unfold historyRowAt
    simp only
    omega

/-- Witness for C6: the seed path at clock 0 on the spec-modelled catalog;
id freshness of the four generated ids is checked by evaluation. -/
theorem claim_C6_timestamp_stagger_witness :
    ∃ st', populateRecentlyPlayedData noFail 0 specCatalog.recentlyPlayedData
        (initState emptyTablesStore testQuery1) = .ok st' ∧
      st'.store.recentlyPlayedRows =
        (List.range specCatalog.recentlyPlayedData.length).map
          (historyRowAt 0 specCatalog.recentlyPlayedData) ∧
      (∀ i, i < specCatalog.recentlyPlayedData.length →
        (st'.store.recentlyPlayedRows.getD i default).playedAt =
          0 - (i : Int) * 3600000) ∧
      st'.store.recentlyPlayedRows.Pairwise
        (fun a b => b.playedAt < a.playedAt) :=
  claim_C6_timestamp_stagger 0 specCatalog.recentlyPlayedData
    (initState emptyTablesStore testQuery1) (by decide) (by decide) (by decide)
    (by decide)

/-- Claim C7: conflict tolerance of seed inserts.  Inserting a row whose
primary-key id already exists in the target table (shown for the `tracks`
and `made_for_you_playlists` inserts, the two loops the claim cites) does
not throw — the run continues with an ok result — and leaves the table
exactly as it was: the conflicting row is dropped by
`onConflictDoNothing`, so no duplicate is created and the pre-existing
row's field values are untouched.  The pure conflict rule itself is stated
as the last two conjuncts. -/
theorem claim_C7_conflict_tolerance (fs : FailureSpec) (st : AgentState)
    (r : TrackRow) (p : MadeForYouRow)
    (hfs1 : fs.insertFails "tracks" = false)
    (hfs2 : fs.insertFails "made_for_you_playlists" = false)
    (hte : st.store.tracksExists = true)
    (hme : st.store.madeForYouExists = true)
    (hc1 : ∃ x ∈ st.store.tracksRows, x.id = r.id)
    (hc2 : ∃ x ∈ st.store.madeForYouRows, x.id = p.id) :
    dbInsertTrack fs r st =
      .ok { st with trace := st.trace ++ [.insertAttempt "tracks" r.id] } ∧
    dbInsertMadeForYou fs p st =
      .ok { st with trace := st.trace ++
        [.insertAttempt "made_for_you_playlists" p.id] } ∧
    insertNoConflict TrackRow.id st.store.tracksRows r = st.store.tracksRows ∧
    insertNoConflict MadeForYouRow.id st.store.madeForYouRows p =
      st.store.madeForYouRows := by
  have h1 := insertNoConflict_of_conflict TrackRow.id st.store.tracksRows r hc1
  have h2 := insertNoConflict_of_conflict MadeForYouRow.id
    st.store.madeForYouRows p hc2
  refine ⟨?_, ?_, h1, h2⟩
  · simp [dbInsertTrack, hfs1, hte, AgentState.emit, AgentState.withStore, h1]
    rw [← hte]
  · simp [dbInsertMadeForYou, hfs2, hme, AgentState.emit, AgentState.withStore, h2]
    rw [← hme]

/-- Store already holding a track row `track-1` and a playlist row
`playlist-1`; used by the C7 witness. -/
def c7Store : Store :=
  ⟨true, [⟨"track-1", "Midnight City", "M83", "Hurry Up", "/img/1.jpg", 243, 0⟩],
   true, [],
   true, [⟨"playlist-1", "Daily Mix 1", "Curated for you", "/img/p1.jpg", 0⟩],
   true, []⟩

/-- Witness for C7: re-inserting rows whose ids `track-1`/`playlist-1`
already exist (with different field values) succeeds and leaves both
tables unchanged. -/
theorem claim_C7_conflict_tolerance_witness :
    dbInsertTrack noFail
        ⟨"track-1", "Other Title", "Other", "Other", "/x.jpg", 1, 99⟩
        (initState c7Store testQuery1) =
      .ok { initState c7Store testQuery1 with
        trace := (initState c7Store testQuery1).trace ++
          [.insertAttempt "tracks" "track-1"] } ∧
    dbInsertMadeForYou noFail
        ⟨"playlist-1", "Other", "Other", "/x.jpg", 99⟩
        (initState c7Store testQuery1) =
      .ok { initState c7Store testQuery1 with
        trace := (initState c7Store testQuery1).trace ++
          [.insertAttempt "made_for_you_playlists" "playlist-1"] } ∧
    insertNoConflict TrackRow.id (initState c7Store testQuery1).store.tracksRows
        ⟨"track-1", "Other Title", "Other", "Other", "/x.jpg", 1, 99⟩ =
      (initState c7Store testQuery1).store.tracksRows ∧
    insertNoConflict MadeForYouRow.id
        (initState c7Store testQuery1).store.madeForYouRows
        ⟨"playlist-1", "Other", "Other", "/x.jpg", 99⟩ =
      (initState c7Store testQuery1).store.madeForYouRows :=
  claim_C7_conflict_tolerance noFail (initState c7Store testQuery1)
    ⟨"track-1", "Other Title", "Other", "Other", "/x.jpg", 1, 99⟩
    ⟨"playlist-1", "Other", "Other", "/x.jpg", 99⟩
    (by decide) (by decide) (by decide) (by decide)
    ⟨⟨"track-1", "Midnight City", "M83", "Hurry Up", "/img/1.jpg", 243, 0⟩,
      by decide, by decide⟩
    ⟨⟨"playlist-1", "Daily Mix 1", "Curated for you", "/img/p1.jpg", 0⟩,
      by decide, by decide⟩

/-- Claim C8: the ensure-schema protocol.  For each of the four entity
tables and any failure model: the count read is always attempted first;
if and only if it fails (injected driver failure or missing relation —
both treated identically) exactly one create-schema statement follows,
with no retry of the read; if the read succeeds no create statement is
issued.  The final conjunct shows the create statement is safe to run when
the table already exists: under no driver failure it always succeeds and
never changes any table's row count. -/
theorem claim_C8_ensure_schema (fs : FailureSpec) (st : AgentState) :
    ((ensureTableExists fs "tracks" st).state.trace =
      st.trace ++ (if fs.countFails "tracks" || !(st.store.existsFlag "tracks")
        then [DbEffect.countRead "tracks", DbEffect.createTable "tracks"]
        else [DbEffect.countRead "tracks"])) ∧
    ((ensureTableExists fs "recently_played" st).state.trace =
      st.trace ++ (if fs.countFails "recently_played" ||
          !(st.store.existsFlag "recently_played")
        then [DbEffect.countRead "recently_played",
          DbEffect.createTable "recently_played"]
        else [DbEffect.countRead "recently_played"])) ∧
    ((ensureTableExists fs "made_for_you_playlists" st).state.trace =
      st.trace ++ (if fs.countFails "made_for_you_playlists" ||
          !(st.store.existsFlag "made_for_you_playlists")
        then [DbEffect.countRead "made_for_you_playlists",
          DbEffect.createTable "made_for_you_playlists"]
        else [DbEffect.countRead "made_for_you_playlists"])) ∧
    ((ensureTableExists fs "popular_albums" st).state.trace =
      st.trace ++ (if fs.countFails "popular_albums" ||
          !(st.store.existsFlag "popular_albums")
        then [DbEffect.countRead "popular_albums",
          DbEffect.createTable "popular_albums"]
        else [DbEffect.countRead "popular_albums"])) ∧
    (∀ t : String, (createTableIfNotExists noFail t st).isOk = true ∧
      ∀ t' : String, (createTableIfNotExists noFail t st).state.store.rowCount t' =
        st.store.rowCount t') := by
  refine ⟨ensureTableExists_trace fs "tracks" (by decide) st,
    ensureTableExists_trace fs "recently_played" (by decide) st,
    ensureTableExists_trace fs "made_for_you_playlists" (by decide) st,
    ensureTableExists_trace fs "popular_albums" (by decide) st, ?_⟩
  intro t
  unfold createTableIfNotExists
  by_cases hk : isKnownTable t = true
  · rw [if_pos hk]
    constructor
    · simp [noFail, Res.isOk, AgentState.emit, AgentState.withStore]
    · intro t'
      simp [noFail, AgentState.emit, AgentState.withStore, Res.state,
        Store.rowCount_setExists]
  · rw [if_neg (by simpa using hk)]
    exact ⟨rfl, fun t' => rfl⟩

/-- Claim C9 counterexample: the claim as stated is false — the
recently-played endpoint's select clause carries a seventh key `playedAt`
beyond the prescribed uniform `{id, title, artist, album, image,
duration}` shape, so not every read endpoint returns exactly those six
fields. -/
theorem claim_C9_counterexample :
    recentlyPlayedRouteFields ≠ specUniformShapeFields := by decide

/-- Claim C9 (amended): the made-for-you and popular-albums endpoints
return elements with exactly the uniform six fields, with the claimed
aliases — description standing in for artist, title for album, the fixed
default duration 210 for playlist rows, and title for album on albums.
The recently-played endpoint returns the six uniform fields plus one
additional `playedAt` field. -/
theorem claim_C9_endpoint_shape :
    madeForYouRouteFields = specUniformShapeFields ∧
    popularAlbumsRouteFields = specUniformShapeFields ∧
    recentlyPlayedRouteFields = specUniformShapeFields ++ ["playedAt"] ∧
    (∀ s : Store, ∀ it ∈ madeForYouGET s, it.duration = 210 ∧
      ∃ p ∈ s.madeForYouRows, it.artist = p.description ∧ it.album = p.title) ∧
    (∀ s : Store, ∀ it ∈ popularAlbumsGET s, ∃ a ∈ s.popularAlbumsRows,
      it.album = a.title ∧ it.artist = a.artist ∧ it.duration = a.duration) := by
  refine ⟨by decide, by decide, by decide, ?_, ?_⟩
  · intro s it hit
    obtain ⟨p, hp, rfl⟩ := List.mem_map.mp hit
    exact ⟨rfl, p, hp, rfl, rfl⟩
  · intro s it hit
    obtain ⟨a, ha, rfl⟩ := List.mem_map.mp hit
    exact ⟨a, ha, rfl, rfl, rfl⟩

/-- Witness for C9: the playlist stored in `c7Store` surfaces through the
made-for-you endpoint with duration 210 and its description as artist. -/
theorem claim_C9_endpoint_shape_witness :
    (⟨"playlist-1", "Daily Mix 1", "Curated for you", "Daily Mix 1",
        "/img/p1.jpg", 210⟩ : ApiItem) ∈ madeForYouGET c7Store ∧
    ((⟨"playlist-1", "Daily Mix 1", "Curated for you", "Daily Mix 1",
        "/img/p1.jpg", 210⟩ : ApiItem).duration = 210 ∧
      ∃ p ∈ c7Store.madeForYouRows,
        (⟨"playlist-1", "Daily Mix 1", "Curated for you", "Daily Mix 1",
          "/img/p1.jpg", 210⟩ : ApiItem).artist = p.description ∧
        (⟨"playlist-1", "Daily Mix 1", "Curated for you", "Daily Mix 1",
          "/img/p1.jpg", 210⟩ : ApiItem).album = p.title) :=
  ⟨by decide, claim_C9_endpoint_shape.2.2.2.1 c7Store _ (by decide)⟩

/-! Sorting machinery for the recently-played endpoint. -/

theorem filter_key_eq_singleton {ρ : Type} (key : ρ → String) :
    ∀ (l : List ρ) (x : ρ), (l.map key).Nodup → x ∈ l →
      l.filter (fun y => decide (key y = key x)) = [x] := by
  intro l
  induction l with
  | nil => intro x _ hx; cases hx
  | cons a t ih =>
    intro x hnd hx
    simp only [List.map_cons, List.nodup_cons] at hnd
    rcases List.mem_cons.mp hx with rfl | hx'
    · rw [List.filter_cons_of_pos (by simp)]
      have ht : t.filter (fun y => decide (key y = key x)) = [] := by
        rw [List.filter_eq_nil_iff]
        intro y hy
        simp only [decide_eq_true_eq]
        intro hk
        exact hnd.1 (hk ▸ List.mem_map_of_mem key hy)
      rw [ht]
    · rw [List.filter_cons_of_neg ?_, ih x hnd.2 hx']
      simp only [decide_eq_true_eq]
      intro hk
      exact hnd.1 (hk ▸ List.mem_map_of_mem key hx')

theorem flatMap_eq_map_of_singleton {α β : Type} (f : α → List β) (g : α → β) :
    ∀ l : List α, (∀ x ∈ l, f x = [g x]) → l.flatMap f = l.map g := by
  intro l
  induction l with
  | nil => intro _; rfl
  | cons a t ih =>
    intro h
    rw [List.flatMap_cons, h a (List.mem_cons_self a t),
      ih (fun x hx => h x (List.mem_cons_of_mem a hx)), List.map_cons]
    rfl

/-- Sorting a list whose keys strictly decrease, with the ascending
comparator, reverses it. -/
theorem mergeSort_eq_reverse_of_strictAnti {α : Type} (key : α → Int)
    (l : List α) (h : l.Pairwise fun a b => key b < key a) :
    (l.mergeSort fun a b => decide (key a ≤ key b)) = l.reverse := by
  have htrans : ∀ (a b c : α), decide (key a ≤ key b) = true →
      decide (key b ≤ key c) = true → decide (key a ≤ key c) = true := by
    intro a b c h1 h2
    simp only [decide_eq_true_eq] at h1 h2 ⊢
    exact le_trans h1 h2
  have htotal : ∀ (a b : α),
      (decide (key a ≤ key b) || decide (key b ≤ key a)) = true := by
    intro a b
    rcases le_total (key a) (key b) with h' | h' <;> simp [h']
  have hperm : (l.mergeSort fun a b => decide (key a ≤ key b)).Perm l.reverse :=
    (List.mergeSort_perm l _).trans (List.reverse_perm l).symm
  have hndl : (l.map key).Nodup :=
    (List.pairwise_map).mpr (h.imp fun hab => ne_of_gt hab)
  have hnds : ((l.mergeSort fun a b => decide (key a ≤ key b)).map key).Nodup := by
    have hpm := (hperm.map key).symm
    have hrevnd : (l.reverse.map key).Nodup := by
      rw [List.map_reverse, List.nodup_reverse]
      exact hndl
    exact hpm.nodup hrevnd
  have hsorted := List.sorted_mergeSort htrans htotal l
  have hle : (l.mergeSort fun a b => decide (key a ≤ key b)).Pairwise
      (fun a b => key a ≤ key b) :=
    hsorted.imp fun hab => by
      simpa only [decide_eq_true_eq] using hab
  have hne : (l.mergeSort fun a b => decide (key a ≤ key b)).Pairwise
      (fun a b => key a ≠ key b) :=
    (List.pairwise_map).mp hnds
  have hstrict : (l.mergeSort fun a b => decide (key a ≤ key b)).Pairwise
      (fun a b => key a < key b) :=
    (hle.and hne).imp fun hab => lt_of_le_of_ne hab.1 hab.2
  have hrev : l.reverse.Pairwise (fun a b => key a < key b) :=
    (List.pairwise_reverse).mpr h
  haveI : IsAntisymm α (fun a b => key a < key b) :=
    ⟨fun a b h1 h2 => absurd (h1.trans h2) (lt_irrefl _)⟩
  exact List.eq_of_perm_of_sorted hperm hstrict hrev

theorem flatMap_of_map {α β γ : Type} (f : α → β) (g : β → List γ) :
    ∀ l : List α, (l.map f).flatMap g = l.flatMap fun x => g (f x) := by
  intro l
  induction l with
  | nil => rfl
  | cons a t ih => simp only [List.map_cons, List.flatMap_cons, ih]

/-- The join of a freshly seeded store pairs the history row of each
fixture index with exactly its own track row. -/
theorem recentlyPlayedJoin_of_seeded (now : Int) (fx : List FrontendTrack)
    (s : Store)
    (hT : s.tracksRows = fx.map (trackRowOfFrontend now))
    (hR : s.recentlyPlayedRows = (List.range fx.length).map (historyRowAt now fx))
    (hidsT : (fx.map FrontendTrack.id).Nodup) :
    recentlyPlayedJoin s = (List.range fx.length).map
      (fun i => (trackRowOfFrontend now (fx.getD i default),
        historyRowAt now fx i)) := by
  unfold recentlyPlayedJoin
  rw [hT, hR, flatMap_of_map]
  apply flatMap_eq_map_of_singleton
  intro i hi
  have hi' : i < fx.length := List.mem_range.mp hi
  have hx : trackRowOfFrontend now (fx.getD i default) ∈
      fx.map (trackRowOfFrontend now) := by
    refine List.mem_map_of_mem _ ?_
    rw [List.getD_eq_getElem fx default hi']
    exact List.getElem_mem hi'
  have hnd : ((fx.map (trackRowOfFrontend now)).map TrackRow.id).Nodup := by
    rw [List.map_map]
    exact hidsT
  have hfil := filter_key_eq_singleton TrackRow.id (fx.map (trackRowOfFrontend now))
    (trackRowOfFrontend now (fx.getD i default)) hnd hx
  rw [show (fun t : TrackRow => decide (t.id = (historyRowAt now fx i).trackId)) =
    (fun y : TrackRow => decide (TrackRow.id y =
      TrackRow.id (trackRowOfFrontend now (fx.getD i default)))) from rfl, hfil]
  rfl

/-- Claim C10: the recently-played endpoint returns at most 10 rows and
orders them by `playedAt` ascending (oldest first); a store seeded from
empty tables therefore surfaces the seeded rows in exactly the reverse of
their fixture order (fixture row 0, the most recent, comes last).  The
first two conjuncts hold for every store; the third instantiates them on
the seeded store, with at most 10 fixtures and distinct fixture and
generated ids. -/
theorem claim_C10_recently_played_get_order (now : Int)
    (fx : List FrontendTrack) (st : AgentState)
    (hex : st.store.recentlyPlayedExists = true)
    (htr : st.store.tracksExists = true)
    (hemptyT : st.store.tracksRows = [])
    (hemptyR : st.store.recentlyPlayedRows = [])
    (hlen : fx.length ≤ 10)
    (hidsT : (fx.map FrontendTrack.id).Nodup)
    (hidsH : ((List.range fx.length).map fun i =>
      "recent-" ++ Nat.repr (i + 1)).Nodup) :
    (∀ s : Store, (recentlyPlayedGET s).length ≤ 10) ∧
    (∀ s : Store, (recentlyPlayedGET s).Pairwise
      fun a b => a.playedAt ≤ b.playedAt) ∧
    (∃ st', populateRecentlyPlayedData noFail now fx st = .ok st' ∧
      recentlyPlayedGET st'.store =
        ((List.range fx.length).map fun i =>
          ({ id := (fx.getD i default).id,
             title := (fx.getD i default).title,
             artist := (fx.getD i default).artist,
             album := (fx.getD i default).album,
             image := (fx.getD i default).image,
             duration := (fx.getD i default).duration,
             playedAt := now - (i : Int) * 3600000 } :
            RecentlyPlayedItem)).reverse) := by
  refine ⟨?_, ?_, ?_⟩
  · intro s
    unfold recentlyPlayedGET
    rw [List.length_take]
    exact min_le_left _ _
  · intro s
    unfold recentlyPlayedGET
    refine List.Pairwise.sublist (List.take_sublist _ _) ?_
    rw [List.pairwise_map]
    have hs := @List.sorted_mergeSort (TrackRow × RecentlyPlayedRow)
      (fun a b => decide (a.2.playedAt ≤ b.2.playedAt))
      (by
        intro a b c h1 h2
        simp only [decide_eq_true_eq] at h1 h2 ⊢
        exact le_trans h1 h2)
      (by
        intro a b
        rcases le_total a.2.playedAt b.2.playedAt with h' | h' <;> simp [h'])
      (recentlyPlayedJoin s)
    exact hs.imp fun hab => by simpa using hab
  · have htracks : fx.foldl (fun rows t =>
        insertNoConflict TrackRow.id rows (trackRowOfFrontend now t))
        st.store.tracksRows = fx.map (trackRowOfFrontend now) := by
      rw [hemptyT]
      have h := foldl_insertNoConflict_of_nodup TrackRow.id
        (fun t => trackRowOfFrontend now t) fx [] hidsT
        (fun y _ a ha => absurd ha (List.not_mem_nil a))
      simpa using h
    have hrows : (List.range fx.length).foldl (fun rows i =>
        insertNoConflict RecentlyPlayedRow.id rows (historyRowAt now fx i)) [] =
        (List.range fx.length).map (historyRowAt now fx) := by
      have h := foldl_insertNoConflict_of_nodup RecentlyPlayedRow.id
        (fun i => historyRowAt now fx i) (List.range fx.length) [] hidsH
        (fun y _ a ha => absurd ha (List.not_mem_nil a))
      simpa using h
    rw [populateRecentlyPlayed_seed now fx st hex htr hemptyR]
    refine ⟨_, rfl, ?_⟩
    have hjoin := recentlyPlayedJoin_of_seeded now fx
      { st.store with
        tracksRows := fx.foldl (fun rows t =>
          insertNoConflict TrackRow.id rows (trackRowOfFrontend now t))
          st.store.tracksRows,
        recentlyPlayedRows := (List.range fx.length).foldl (fun rows i =>
          insertNoConflict RecentlyPlayedRow.id rows (historyRowAt now fx i)) [] }
      htracks hrows hidsT
    unfold recentlyPlayedGET
    rw [hjoin]
    have hanti : ((List.range fx.length).map (fun i =>
        (trackRowOfFrontend now (fx.getD i default),
          historyRowAt now fx i))).Pairwise
        (fun a b => b.2.playedAt < a.2.playedAt) := by
      rw [List.pairwise_map]
      refine List.Pairwise.imp ?_ (List.pairwise_lt_range fx.length)
      intro i j hij
      show (historyRowAt now fx j).playedAt < (historyRowAt now fx i).playedAt
      unfold historyRowAt
      simp only
      omega
    have hms := mergeSort_eq_reverse_of_strictAnti
      (fun p : TrackRow × RecentlyPlayedRow => p.2.playedAt)
      ((List.range fx.length).map (fun i =>
        (trackRowOfFrontend now (fx.getD i default), historyRowAt now fx i)))
      hanti
    rw [show ((List.range fx.length).map (fun i =>
        (trackRowOfFrontend now (fx.getD i default),
          historyRowAt now fx i))).mergeSort
        (fun a b => decide (a.2.playedAt ≤ b.2.playedAt)) =
        ((List.range fx.length).map (fun i =>
          (trackRowOfFrontend now (fx.getD i default),
            historyRowAt now fx i))).reverse
      from hms]
    rw [List.map_reverse, List.map_map, List.take_of_length_le (by simp [hlen])]
    rfl

/-- Witness for C10: at clock 0 on the spec-modelled catalog over an empty
store, the endpoint returns the four seeded rows in reverse fixture
order. -/
theorem claim_C10_recently_played_get_order_witness :
    (∀ s : Store, (recentlyPlayedGET s).length ≤ 10) ∧
    (∀ s : Store, (recentlyPlayedGET s).Pairwise
      fun a b => a.playedAt ≤ b.playedAt) ∧
    (∃ st', populateRecentlyPlayedData noFail 0 specCatalog.recentlyPlayedData
        (initState emptyTablesStore testQuery1) = .ok st' ∧
      recentlyPlayedGET st'.store =
        ((List.range specCatalog.recentlyPlayedData.length).map fun i =>
          ({ id := (specCatalog.recentlyPlayedData.getD i default).id,
             title := (specCatalog.recentlyPlayedData.getD i default).title,
             artist := (specCatalog.recentlyPlayedData.getD i default).artist,
             album := (specCatalog.recentlyPlayedData.getD i default).album,
             image := (specCatalog.recentlyPlayedData.getD i default).image,
             duration := (specCatalog.recentlyPlayedData.getD i default).duration,
             playedAt := 0 - (i : Int) * 3600000 } :
            RecentlyPlayedItem)).reverse) :=
  claim_C10_recently_played_get_order 0 specCatalog.recentlyPlayedData
    (initState emptyTablesStore testQuery1) (by decide) (by decide) (by decide)
    (by decide) (by decide) (by decide) (by decide)

end SpotifyAgent
